import Mathlib

/-!
# Swift/MPTP transport core

A shallow embedding of `src/kernel/swift.c`: the port table, the socket
operations (`swift_release`, `swift_bind`, `swift_connect`, `swift_sendmsg`,
`swift_recvmsg`) and the inbound handler `swift_rcv`, followed by the
properties of the specification that were checked against them.

Conventions of the embedding.

* A `struct socket` and the `struct sock` it owns are identified by one
  natural number (the socket id); `State.sk id = none` stands for
  `sock->sk == NULL`.  The pointers stored in `sock_port_map` are socket ids.
* Machine integers are natural numbers or integers; a conversion that can
  lose information in the C code is written as an explicit remainder.
* Services of the host kernel (buffer allocation, user-memory copies, route
  lookup, transmit, receive-queue accounting) are not part of the repository;
  their results are inputs of the embedded functions.
* Dereferencing a null or stale pointer, and the `BUG()` trap, are the
  outcome `none`.
-/

namespace Swift

/-! ## Constants -/

/-- Modelled from the spec: `MAX_SWIFT_PORT` is declared in `swift.h`, which is
not among the sources.  The spec gives 8-bit ports with valid range [1, 255] and
a table indexed by port, so the table has 256 slots. -/
def MAX_SWIFT_PORT : Nat := 256

/-- Modelled from the spec: `sizeof(struct sockaddr_swift)`, declared in
`swift.h`.  The record is a 4-byte `count` followed by the descriptors, so the
fixed part is 4 bytes. -/
def SIZEOF_SOCKADDR_SWIFT : Nat := 4

/-- Modelled from the spec: `sizeof(struct swift_dest)`, declared in `swift.h`:
a 4-byte IPv4 address, a 1-byte port, padding, and a 4-byte byte count. -/
def SIZEOF_SWIFT_DEST : Nat := 12

/-- Modelled from the spec: `sizeof(struct swifthdr)`, declared in `swift.h`:
source port (1 byte), destination port (1 byte), length (2 bytes). -/
def SIZEOF_SWIFTHDR : Nat := 4

/-- The size of an IPv4 header without options, `sizeof(struct iphdr)`. -/
def SIZEOF_IPHDR : Nat := 20

/-- The width of `size_t` on the (LP64) host: unsigned arithmetic is modulo this. -/
def SIZE_T_MOD : Nat := 2 ^ 64

def EAGAIN : Int := 11
def ENOMEM : Int := 12
def EINVAL : Int := 22
def EDESTADDRREQ : Int := 89
def EADDRINUSE : Int := 98

def NET_RX_SUCCESS : Int := 0
def NET_RX_DROP : Int := 1

def MSG_TRUNC : Nat := 0x20
def MSG_DONTWAIT : Nat := 0x40

/-! ## Byte order -/

/-- Byte order of the host the module runs on. -/
inductive Endian where
  | little
  | big
deriving DecidableEq, Repr

/-- Swap the two bytes of a 16-bit value. -/
def swab16 (x : Nat) : Nat := (x % 256) * 256 + (x / 256) % 256

/-- The kernel's `ntohs`: a byte swap on a little-endian host, the identity on
a big-endian one. -/
def ntohs (host : Endian) (x : Nat) : Nat :=
  match host with
  | Endian.little => swab16 x
  | Endian.big => x

/-- Read a 16-bit field whose bytes are `b0` (lower address) and `b1`. -/
def load16 (host : Endian) (b0 b1 : Nat) : Nat :=
  match host with
  | Endian.little => b0 + 256 * b1
  | Endian.big => 256 * b0 + b1

/-- Write a 16-bit field: the bytes at the lower and at the higher address. -/
def store16 (host : Endian) (x : Nat) : Nat × Nat :=
  match host with
  | Endian.little => (x % 256, (x / 256) % 256)
  | Endian.big => ((x / 256) % 256, x % 256)

/-! ## Data model -/

/-- One destination descriptor, `struct swift_dest`. -/
structure swift_dest where
  addr : Nat
  port : Nat
  bytes : Nat
deriving DecidableEq, Repr

/-- The address record `struct sockaddr_swift` as the kernel sees it: a signed
count and the descriptor array that follows it in memory. -/
structure sockaddr_swift where
  count : Int
  dests : Nat → swift_dest

/-- A socket buffer: the bytes from `skb->data` (their number is `skb->len`),
the source address of the IP header, and the descriptor kept in `skb->cb`. -/
structure sk_buff where
  data : List Nat
  saddr : Nat
  cb : swift_dest
deriving DecidableEq, Repr

/-- The protocol socket `struct swift_sock` with the fields of the embedded
`struct inet_sock` / `struct sock` that the module touches. -/
structure swift_sock where
  src : Nat
  dst : Nat
  inet_daddr : Nat
  sk_rcvbuf : Nat
  sk_receive_queue : List sk_buff
  sk_dst_cache : Option Nat
deriving DecidableEq, Repr

/-- The module state: the global `sock_port_map` and the sockets. -/
structure State where
  sock_port_map : Nat → Option Nat
  sk : Nat → Option swift_sock

/-- Replace the socket stored under `id`. -/
def State.set_sk (st : State) (id : Nat) (s : Option swift_sock) : State :=
  { st with sk := fun j => if j = id then s else st.sk j }

/-! ## Port table (`swift.c` lines 34-56) -/

/-- The scan of `get_next_free_port`: `i` is the loop variable, `n` the number
of iterations left. -/
def get_next_free_port_loop (map : Nat → Option Nat) : Nat → Nat → Nat
  | _, 0 => 0
  | i, n + 1 => if map i = none then i % 256 else get_next_free_port_loop map (i + 1) n

/-- Lowest free slot in `[MIN_SWIFT_PORT, MAX_SWIFT_PORT)`, as a `uint8_t`, or 0.
`MIN_SWIFT_PORT` comes from `swift.h` and is a parameter. -/
def get_next_free_port (MIN_SWIFT_PORT : Nat) (map : Nat → Option Nat) : Nat :=
  get_next_free_port_loop map MIN_SWIFT_PORT (MAX_SWIFT_PORT - MIN_SWIFT_PORT)

def swift_unhash (map : Nat → Option Nat) (port : Nat) : Nat → Option Nat :=
  fun p => if p = port then none else map p

def swift_hash (map : Nat → Option Nat) (port : Nat) (ssk : Nat) : Nat → Option Nat :=
  fun p => if p = port then some ssk else map p

def swift_lookup (map : Nat → Option Nat) (port : Nat) : Option Nat := map port

/-- The conversion of a signed value to `size_t`. -/
def to_size_t (x : Int) : Nat := (x % (SIZE_T_MOD : Int)).toNat

/-! ## Release, bind, connect (`swift.c` lines 58-195) -/

/-- The release operation of a socket.  Returns the new state and 0. -/
def swift_release (st : State) (sock : Nat) : State × Int :=
  match st.sk sock with
  | none => (st, 0)
  | some ssk =>
    let map := swift_unhash st.sock_port_map ssk.src
    ({ sock_port_map := map, sk := fun j => if j = sock then none else st.sk j }, 0)

/-- The bind operation.  `addr_len` is the length passed by the caller (the
socket layer only passes lengths in [0, 128]).  `none` is the dereference of a
null `sock->sk`. -/
def swift_bind (st : State) (sock : Nat) (addr : sockaddr_swift) (addr_len : Nat) :
    Option (State × Int) :=
  if addr_len < SIZEOF_SOCKADDR_SWIFT then some (st, -EINVAL)
  else
    let port := (addr.dests 0).port
    if port = 0 ∨ MAX_SWIFT_PORT ≤ port then some (st, -EINVAL)
    else if swift_lookup st.sock_port_map port ≠ none then some (st, -EADDRINUSE)
    else
      match st.sk sock with
      | none => none
      | some ssk =>
        let ssk1 : swift_sock := { ssk with sk_rcvbuf := 10 * 1024 * 1024 }
        let ssk2 : swift_sock := { ssk1 with src := port }
        some ({ sock_port_map := swift_hash st.sock_port_map port sock,
                sk := fun j => if j = sock then some ssk2 else st.sk j }, 0)

/-- The length test shared by `swift_connect` and `swift_sendmsg`: true when the
record is rejected. -/
abbrev bad_name_len (addr : sockaddr_swift) (len : Nat) : Prop :=
  len < SIZEOF_SOCKADDR_SWIFT ∨
    len < to_size_t (addr.count * (SIZEOF_SWIFT_DEST : Int)) ∨
    addr.count ≤ 0

/-- The connect operation.  The `sock == NULL` test cannot fire: `sock` is a
socket id.  `addr = none` is a null `addr`. -/
def swift_connect (MIN_SWIFT_PORT : Nat) (st : State) (sock : Nat)
    (addr : Option sockaddr_swift) (addr_len : Nat) : State × Int :=
  match st.sk sock with
  | none => (st, -EINVAL)
  | some ssk =>
    if ssk.src ≠ 0 then (st, -EINVAL)
    else
      match addr with
      | none => (st, -EINVAL)
      | some swift_addr =>
        if bad_name_len swift_addr addr_len then (st, -EINVAL)
        else
          let ssk1 : swift_sock := { ssk with dst := (swift_addr.dests 0).port }
          if ssk1.dst = 0 ∨ MAX_SWIFT_PORT ≤ ssk1.dst then
            (st.set_sk sock (some ssk1), -EINVAL)
          else
            let ssk2 : swift_sock := { ssk1 with inet_daddr := (swift_addr.dests 0).addr }
            let ssk3 : swift_sock :=
              { ssk2 with src := get_next_free_port MIN_SWIFT_PORT st.sock_port_map }
            if ssk3.src = 0 then (st.set_sk sock (some ssk3), -ENOMEM)
            else
              ({ sock_port_map := swift_hash st.sock_port_map ssk3.src sock,
                 sk := fun j => if j = sock then some ssk3 else st.sk j }, 0)

/-! ## Send path (`swift.c` lines 197-351) -/

/-- The message header of a send or receive call.  `msg_name = none` is a null
pointer; `msg_iov` is the gather vector, each element being the bytes of one
buffer (its `iov_len` is the length of the list, `msg_iovlen` the number of
elements). -/
structure msghdr where
  msg_name : Option sockaddr_swift
  msg_namelen : Nat
  msg_iov : List (List Nat)
  msg_flags : Nat

/-- Results of the kernel services used by one `swift_sendmsg` call.
`alloc_err i` is 0 when `sock_alloc_send_skb` returned a buffer in iteration `i`
and the error it stored otherwise; `copy_err i` is the result of
`skb_copy_datagram_from_iovec`; `route_err a` the result of
`ip_route_output_flow` for destination address `a`; `xmit_err i` the result of
`ip_queue_xmit`. -/
structure send_env where
  alloc_err : Nat → Int
  copy_err : Nat → Int
  route_err : Nat → Int
  xmit_err : Nat → Int

/-- A buffer handed to `ip_queue_xmit`: its bytes from the transport header on,
and the route cached on the socket at that moment (a route is named by the
address it was looked up for). -/
structure xmit_skb where
  data : List Nat
  rt : Option Nat
deriving DecidableEq, Repr

/-- The header written by lines 301-304, in the field order of
`struct swifthdr`: src, dst, and the two bytes of `len`. -/
def swift_put_hdr (host : Endian) (sport dport len : Nat) : List Nat :=
  let v := ntohs host ((len + SIZEOF_SWIFTHDR) % 65536)
  [sport, dport, (store16 host v).1, (store16 host v).2]

/-- The loop of `swift_sendmsg` (lines 270-342).  `n` counts the iterations
left, `i` is the loop variable, `rt` and `err` are the locals of that name,
`ssk` is the sending socket and `out` the buffers handed to the IP layer so
far.  `connected` is 0 whenever the loop is reached. -/
def swift_sendmsg_loop (host : Endian) (env : send_env) (sport : Nat)
    (swift_addr : sockaddr_swift) (iov : List (List Nat)) :
    Nat → Nat → Option Nat → Int → swift_sock → List xmit_skb →
      swift_sock × List xmit_skb × Int
  | 0, _, _, err, ssk, out => (ssk, out, err)
  | n + 1, i, rt, _, ssk, out =>
    let dest := swift_addr.dests i
    let payload := iov.getD i []
    let dport := dest.port
    if dport = 0 ∨ MAX_SWIFT_PORT ≤ dport then (ssk, out, -EINVAL)
    else
      let daddr := dest.addr
      let len := payload.length
      if env.alloc_err i ≠ 0 then (ssk, out, env.alloc_err i)
      else
        let data := swift_put_hdr host sport dport len ++ payload
        if env.copy_err i ≠ 0 then (ssk, out, env.copy_err i)
        else
          match rt with
          | none =>
            if env.route_err daddr ≠ 0 then (ssk, out, env.route_err daddr)
            else
              let ssk1 : swift_sock := { ssk with sk_dst_cache := some daddr }
              swift_sendmsg_loop host env sport swift_addr iov n (i + 1) (some daddr)
                (env.xmit_err i) ssk1 (out ++ [{ data := data, rt := ssk1.sk_dst_cache }])
          | some r =>
            swift_sendmsg_loop host env sport swift_addr iov n (i + 1) (some r)
              (env.xmit_err i) ssk (out ++ [{ data := data, rt := ssk.sk_dst_cache }])

/-- The send operation.  `err0` is the indeterminate initial value of the local
`err`.  The result is the new state, the buffers handed to the IP layer in
order, and the return value; `none` is the `BUG()` of the branch without a
target record. -/
def swift_sendmsg (host : Endian) (MIN_SWIFT_PORT : Nat) (env : send_env) (st : State)
    (sock : Nat) (msg : msghdr) (err0 : Int) : Option (State × List xmit_skb × Int) :=
  match st.sk sock with
  | none => some (st, [], -EINVAL)
  | some ssk =>
    let sport := if ssk.src = 0 then get_next_free_port MIN_SWIFT_PORT st.sock_port_map
      else ssk.src
    if sport = 0 then some (st, [], -ENOMEM)
    else
      match msg.msg_name with
      | none => none
      | some swift_addr =>
        if bad_name_len swift_addr msg.msg_namelen then some (st, [], -EINVAL)
        else
          let dests0 := to_size_t swift_addr.count
          let dests := if msg.msg_iov.length < dests0 then msg.msg_iov.length else dests0
          let r := swift_sendmsg_loop host env sport swift_addr msg.msg_iov dests 0 none err0
            ssk []
          some (st.set_sk sock (some r.1), r.2.1, r.2.2)

/-! ## Receive path: recvmsg (`swift.c` lines 353-413) -/

/-- What a `swift_recvmsg` call leaves behind: the state, the message header
(buffers, flags, out-address record and its length), the return value, and the
buffer that was taken off the queue but neither copied nor freed, if any. -/
structure recv_result where
  st : State
  msg : msghdr
  ret : Int
  held : Option sk_buff

/-- Outcome of a `swift_recvmsg` call: it returns, it sleeps on the empty queue,
or it dereferences a null pointer. -/
inductive recv_outcome where
  | done (r : recv_result)
  | blocks
  | oops

/-- State of the locals when the loop of `swift_recvmsg` is left. -/
structure recv_loop_exit where
  i : Nat
  err : Int
  msg : msghdr
  queue : List sk_buff
  held : Option sk_buff

/-- Store `b` at position `i` of the gather vector. -/
def set_iov (iov : List (List Nat)) (i : Nat) (b : List Nat) : List (List Nat) :=
  iov.set i b

/-- The write of lines 391-392 through `ret_addr`: the descriptor of `skb->cb`
is copied to `dests[i]` and its `bytes` is set to `copied`.  (Line 391 names
the source `mptp_addr`; the only descriptor in scope is `swift_addr`, set from
`skb->cb` on line 373.) -/
def write_ret_addr (ret_addr : Option sockaddr_swift) (i : Nat) (cb : swift_dest)
    (copied : Nat) : Option sockaddr_swift :=
  match ret_addr with
  | none => none
  | some ra =>
    some { ra with dests := fun j => if j = i then { cb with bytes := copied } else ra.dests j }

/-- The loop of `swift_recvmsg` (lines 370-406).  `n` counts the iterations
left, `i` is the loop variable, `skb` the buffer in hand, `err` the local of
that name, `queue` the receive queue of the socket.  `copy_err i` is the result
of `skb_copy_datagram_iovec` in iteration `i`. -/
def swift_recvmsg_loop (copy_err : Nat → Int) :
    Nat → Nat → sk_buff → Int → msghdr → List sk_buff → recv_loop_exit
  | 0, i, skb, err, msg, queue =>
    { i := i, err := err, msg := msg, queue := queue, held := some skb }
  | n + 1, i, skb, _, msg, queue =>
    let buf := msg.msg_iov.getD i []
    let trunc := buf.length < skb.data.length
    let copied := if trunc then buf.length else skb.data.length
    let msg1 : msghdr := if trunc then { msg with msg_flags := msg.msg_flags ||| MSG_TRUNC }
      else msg
    let msg2 : msghdr :=
      if copy_err i ≠ 0 then msg1
      else
        { msg1 with
          msg_iov := set_iov msg1.msg_iov i (skb.data.take copied ++ buf.drop copied)
          msg_name := write_ret_addr msg1.msg_name i skb.cb copied }
    let err1 : Int := if copy_err i ≠ 0 then copy_err i else copied
    match queue with
    | [] => { i := i, err := copied, msg := msg2, queue := [], held := none }
    | next :: rest =>
      if err1 = -EAGAIN then
        { i := i, err := copied, msg := msg2, queue := rest, held := some next }
      else swift_recvmsg_loop copy_err n (i + 1) next err1 msg2 rest

/-- The receive operation.  `flags` are the call's flags, `err0` the
indeterminate initial value of the local `err`.  The queue primitive
`skb_recv_datagram` is the kernel's: it takes the head of the queue, and on an
empty queue stores `-EAGAIN` when told not to wait. -/
def swift_recvmsg (copy_err : Nat → Int) (st : State) (sock : Nat) (msg : msghdr)
    (flags : Nat) (err0 : Int) : recv_outcome :=
  match st.sk sock with
  | none => recv_outcome.oops
  | some ssk =>
    match ssk.sk_receive_queue with
    | [] =>
      if flags &&& MSG_DONTWAIT ≠ 0 then
        recv_outcome.done { st := st, msg := msg, ret := -EAGAIN, held := none }
      else recv_outcome.blocks
    | skb :: queue =>
      let x := swift_recvmsg_loop copy_err msg.msg_iov.length 0 skb err0 msg queue
      match x.msg.msg_name with
      | none => recv_outcome.oops
      | some ret_addr =>
        let ret_addr1 : sockaddr_swift := { ret_addr with count := (x.i : Int) + 1 }
        let msg1 : msghdr :=
          { x.msg with
            msg_name := some ret_addr1
            msg_namelen := SIZEOF_SOCKADDR_SWIFT + (x.i + 1) * SIZEOF_SWIFT_DEST }
        recv_outcome.done
          { st := st.set_sk sock (some { ssk with sk_receive_queue := x.queue }),
            msg := msg1, ret := x.err, held := x.held }

/-! ## Inbound handler (`swift.c` lines 415-481) -/

/-- The declared length of a datagram: `ntohs(shdr->len)`, the length field
being bytes 2 and 3 of the header. -/
def swift_hdr_len (host : Endian) (data : List Nat) : Nat :=
  ntohs host (load16 host (data.getD 2 0) (data.getD 3 0))

/-- The kernel's `pskb_trim`: shorten the buffer to `len` bytes if it is longer. -/
def pskb_trim (data : List Nat) (len : Nat) : List Nat :=
  if len < data.length then data.take len else data

/-- The inbound handler.  `queue_err` is the result of `ip_queue_rcv_skb`
(0 when the receive queue took the buffer, which it then holds at its tail).
The result is the new state and the return value of the handler; `none` is the
use of a table entry whose socket is gone. -/
def swift_rcv (host : Endian) (st : State) (skb : sk_buff) (queue_err : Int) :
    Option (State × Int) :=
  if skb.data.length < SIZEOF_SWIFTHDR then some (st, NET_RX_DROP)
  else
    let len := swift_hdr_len host skb.data
    if skb.data.length < len then some (st, NET_RX_DROP)
    else if len < SIZEOF_SWIFTHDR then some (st, NET_RX_DROP)
    else
      let src := skb.data.getD 0 0
      let dst := skb.data.getD 1 0
      if src = 0 ∨ dst = 0 ∨ MAX_SWIFT_PORT ≤ src ∨ MAX_SWIFT_PORT ≤ dst then
        some (st, NET_RX_DROP)
      else
        let data1 := skb.data.drop SIZEOF_SWIFTHDR
        let len1 := len - SIZEOF_SWIFTHDR
        let data2 := pskb_trim data1 len1
        match swift_lookup st.sock_port_map dst with
        | none => some (st, NET_RX_DROP)
        | some id =>
          let cb : swift_dest := { skb.cb with port := src, addr := skb.saddr }
          let skb1 : sk_buff := { data := data2, saddr := skb.saddr, cb := cb }
          match st.sk id with
          | none => none
          | some ssk =>
            if queue_err ≠ 0 then some (st, NET_RX_SUCCESS)
            else
              some (st.set_sk id
                (some { ssk with sk_receive_queue := ssk.sk_receive_queue ++ [skb1] }),
                NET_RX_SUCCESS)

/-- The condition under which `swift_rcv` goes on to the receive queue: the
buffer holds a header, the declared length `L` satisfies `4 ≤ L ≤ skb->len`,
both ports are in [1, 255] and the destination port is in the table. -/
def rcv_valid (host : Endian) (st : State) (skb : sk_buff) : Prop :=
  4 ≤ skb.data.length ∧
  4 ≤ swift_hdr_len host skb.data ∧ swift_hdr_len host skb.data ≤ skb.data.length ∧
  (1 ≤ skb.data.getD 0 0 ∧ skb.data.getD 0 0 ≤ 255) ∧
  (1 ≤ skb.data.getD 1 0 ∧ skb.data.getD 1 0 ≤ 255) ∧
  st.sock_port_map (skb.data.getD 1 0) ≠ none

/-! ## Socket creation and sequences of calls -/

/-- Modelled from the spec: socket creation is done by the host's socket layer,
outside `swift.c`.  The spec: create "allocates a socket with src=0, dst=0,
daddr=0, empty receive queue", the receive buffer cap being a fixed bound
(10 MiB).  `id` names the new socket. -/
def swift_create (st : State) (id : Nat) : State :=
  st.set_sk id (some { src := 0, dst := 0, inet_daddr := 0, sk_rcvbuf := 10 * 1024 * 1024,
                       sk_receive_queue := [], sk_dst_cache := none })

/-- The initial state: empty port table, no socket. -/
def init_state : State :=
  { sock_port_map := fun _ => none, sk := fun _ => none }

/-- One call into the module, with its arguments and the results of the kernel
services it uses. -/
inductive call where
  | create (id : Nat)
  | bind (sock : Nat) (addr : sockaddr_swift) (addr_len : Nat)
  | connect (sock : Nat) (addr : Option sockaddr_swift) (addr_len : Nat)
  | sendmsg (env : send_env) (sock : Nat) (msg : msghdr) (err0 : Int)
  | recvmsg (copy_err : Nat → Int) (sock : Nat) (msg : msghdr) (flags : Nat) (err0 : Int)
  | rcv (skb : sk_buff) (queue_err : Int)
  | release (sock : Nat)

/-- The state after a call that returns (with success or with an error);
`none` when the call does not return (it traps or sleeps) or, for `create`,
when the id is already that of a live socket. -/
def apply_call (host : Endian) (MIN_SWIFT_PORT : Nat) (st : State) : call → Option State
  | call.create id =>
    match st.sk id with
    | none => some (swift_create st id)
    | some _ => none
  | call.bind sock addr addr_len =>
    match swift_bind st sock addr addr_len with
    | none => none
    | some r => some r.1
  | call.connect sock addr addr_len =>
    some (swift_connect MIN_SWIFT_PORT st sock addr addr_len).1
  | call.sendmsg env sock msg err0 =>
    match swift_sendmsg host MIN_SWIFT_PORT env st sock msg err0 with
    | none => none
    | some r => some r.1
  | call.recvmsg copy_err sock msg flags err0 =>
    match swift_recvmsg copy_err st sock msg flags err0 with
    | recv_outcome.done r => some r.st
    | recv_outcome.blocks => none
    | recv_outcome.oops => none
  | call.rcv skb queue_err =>
    match swift_rcv host st skb queue_err with
    | none => none
    | some r => some r.1
  | call.release sock => some (swift_release st sock).1

/-- The state after a sequence of calls, each of which returns. -/
def run_calls (host : Endian) (MIN_SWIFT_PORT : Nat) : State → List call → Option State
  | st, [] => some st
  | st, c :: cs =>
    match apply_call host MIN_SWIFT_PORT st c with
    | none => none
    | some st1 => run_calls host MIN_SWIFT_PORT st1 cs

/-- A state is reachable when some sequence of calls leads to it from the
initial state. -/
def reachable (host : Endian) (MIN_SWIFT_PORT : Nat) (st : State) : Prop :=
  ∃ cs, run_calls host MIN_SWIFT_PORT init_state cs = some st

/-- Every live socket with a non-zero `src` is the socket its port maps to. -/
def src_in_table (st : State) : Prop :=
  ∀ id s, st.sk id = some s → s.src ≠ 0 → st.sock_port_map s.src = some id

/-! ## One iteration of the receive loop, named for the proofs -/

/-- The value of `copied` after lines 375-379 in iteration `i` with `skb` in
hand. -/
def recv_iter_copied (msg : msghdr) (i : Nat) (skb : sk_buff) : Nat :=
  if (msg.msg_iov.getD i []).length < skb.data.length then (msg.msg_iov.getD i []).length
  else skb.data.length

/-- The message header after lines 375-393 of iteration `i`. -/
def recv_iter_msg (copy_err : Nat → Int) (msg : msghdr) (i : Nat) (skb : sk_buff) : msghdr :=
  let buf := msg.msg_iov.getD i []
  let trunc := buf.length < skb.data.length
  let copied := if trunc then buf.length else skb.data.length
  let msg1 : msghdr := if trunc then { msg with msg_flags := msg.msg_flags ||| MSG_TRUNC }
    else msg
  if copy_err i ≠ 0 then msg1
  else
    { msg1 with
      msg_iov := set_iov msg1.msg_iov i (skb.data.take copied ++ buf.drop copied)
      msg_name := write_ret_addr msg1.msg_name i skb.cb copied }

/-- The value of `err` when line 397 is reached in iteration `i`. -/
def recv_iter_err (copy_err : Nat → Int) (msg : msghdr) (i : Nat) (skb : sk_buff) : Int :=
  if copy_err i ≠ 0 then copy_err i else (recv_iter_copied msg i skb : Int)

/-- The default buffer used when indexing a list of buffers. -/
def no_skb : sk_buff := { data := [], saddr := 0, cb := ⟨0, 0, 0⟩ }

/-! ## Concrete inputs used to evaluate the embedding -/

/-- A socket as the kernel creates it: every field zero, empty queue. -/
def fresh_sock : swift_sock :=
  { src := 0, dst := 0, inet_daddr := 0, sk_rcvbuf := 0, sk_receive_queue := [],
    sk_dst_cache := none }

/-- A socket bound to `port` (the state `swift_bind` leaves it in). -/
def bound_sock (port : Nat) : swift_sock :=
  { fresh_sock with src := port, sk_rcvbuf := 10 * 1024 * 1024 }

/-- Kernel services that all succeed. -/
def env_ok : send_env :=
  { alloc_err := fun _ => 0, copy_err := fun _ => 0, route_err := fun _ => 0,
    xmit_err := fun _ => 0 }

/-- The state after sockets 1, ..., 255 were each bound to the port of the same
number, with socket 0 created and not bound: no port is free. -/
def full_state : State :=
  { sock_port_map := fun p => if 1 ≤ p ∧ p ≤ 255 then some p else none,
    sk := fun id => if id = 0 then some fresh_sock
      else if id ≤ 255 then some (bound_sock id) else none }

/-- Socket 0 bound to port 10, no other socket. -/
def one_bound_state : State :=
  { sock_port_map := fun p => if p = 10 then some 0 else none,
    sk := fun id => if id = 0 then some (bound_sock 10) else none }

/-- A target record with two destinations, ports 20 and 30 at address 1. -/
def two_dests : sockaddr_swift :=
  { count := 2, dests := fun i => if i = 0 then ⟨1, 20, 0⟩ else ⟨1, 30, 0⟩ }

/-- A send call with the record `two_dests` (passed with its full length,
4 + 2 * 12) and the payloads "hi" and "x". -/
def two_dests_msg : msghdr :=
  { msg_name := some two_dests, msg_namelen := 28, msg_iov := [[104, 105], [120]],
    msg_flags := 0 }

/-- Socket 0 bound to port 10 and socket 1 bound to port 20. -/
def two_bound_state : State :=
  { sock_port_map := fun p => if p = 10 then some 0 else if p = 20 then some 1 else none,
    sk := fun id => if id = 0 then some (bound_sock 10)
      else if id = 1 then some (bound_sock 20) else none }

/-- A target record with the single destination (address 1, port 20). -/
def one_dest : sockaddr_swift :=
  { count := 1, dests := fun _ => ⟨1, 20, 0⟩ }

/-- An out-address record with room for descriptors, all zero. -/
def zero_addr : sockaddr_swift :=
  { count := 0, dests := fun _ => ⟨0, 0, 0⟩ }

/-- Socket 0 bound to port 50 with two datagrams queued: payload [1] from
(address 1, port 10), then payload [2] from (address 1, port 11). -/
def two_queued_state : State :=
  { sock_port_map := fun p => if p = 50 then some 0 else none,
    sk := fun id => if id = 0 then
        some { bound_sock 50 with
          sk_receive_queue := [{ data := [1], saddr := 1, cb := ⟨1, 10, 0⟩ },
                               { data := [2], saddr := 1, cb := ⟨1, 11, 0⟩ }] }
      else none }

/-- A target record with two destinations at different addresses:
(address 1, port 20) and (address 2, port 30). -/
def two_addr_dests : sockaddr_swift :=
  { count := 2, dests := fun i => if i = 0 then ⟨1, 20, 0⟩ else ⟨2, 30, 0⟩ }

/-- A send call with the record `two_addr_dests` (full length 4 + 2 * 12) and
the payloads "hi" and "x". -/
def two_addr_msg : msghdr :=
  { msg_name := some two_addr_dests, msg_namelen := 28, msg_iov := [[104, 105], [120]],
    msg_flags := 0 }

/-- A bind record for `port`: count 1, one descriptor (address 0, `port`). -/
def bind_addr (port : Nat) : sockaddr_swift :=
  { count := 1, dests := fun _ => ⟨0, port, 0⟩ }

/-- The state after creating socket 0 and binding it to port 42. -/
def bound42_state : State :=
  { sock_port_map := swift_hash init_state.sock_port_map 42 0,
    sk := fun j => if j = 0 then
        some { src := 42, dst := 0, inet_daddr := 0, sk_rcvbuf := 10 * 1024 * 1024,
               sk_receive_queue := [], sk_dst_cache := none }
      else (swift_create init_state 0).sk j }

/-! ## Auxiliary lemmas -/

/-- Writing `ntohs v` into a 16-bit field leaves the high byte of `v` at the
lower address and the low byte at the higher one, whatever the host. -/
theorem store16_ntohs (host : Endian) (v : Nat) (hv : v < 65536) :
    store16 host (ntohs host v) = (v / 256, v % 256) := by
  have hh : v / 256 < 256 := by omega
  have hl : v % 256 < 256 := by omega
  have e1 : v / 256 % 256 = v / 256 := Nat.mod_eq_of_lt hh
  cases host
  · simp only [store16, ntohs, swab16, e1]
    generalize v / 256 = h at hh
    generalize v % 256 = l at hl
    have a1 : (l * 256 + h) % 256 = h := by omega
    have a2 : (l * 256 + h) / 256 % 256 = l := by omega
    rw [a1, a2]
  · simp only [store16, ntohs, e1]

/-- Reading a 16-bit field through `ntohs` gives the big-endian value of its
two bytes, whatever the host. -/
theorem ntohs_load16 (host : Endian) (b0 b1 : Nat) (h0 : b0 < 256) (h1 : b1 < 256) :
    ntohs host (load16 host b0 b1) = 256 * b0 + b1 := by
  cases host
  · simp only [ntohs, load16, swab16]; omega
  · simp only [ntohs, load16]

/-- The header bytes written by the send path when the length fits 16 bits. -/
theorem swift_put_hdr_eq (host : Endian) (sport dport len : Nat) (h : len + 4 < 65536) :
    swift_put_hdr host sport dport len =
      [sport, dport, (len + 4) / 256, (len + 4) % 256] := by
  simp only [swift_put_hdr, SIZEOF_SWIFTHDR]
  rw [Nat.mod_eq_of_lt h, store16_ntohs host _ h]

/-- The data of the buffers emitted by the loop of `swift_sendmsg` when ports
are valid and allocation, copy and route lookup succeed. -/
theorem swift_sendmsg_loop_data (host : Endian) (env : send_env) (sport : Nat)
    (swift_addr : sockaddr_swift) (iov : List (List Nat))
    (halloc : ∀ i, env.alloc_err i = 0) (hcopy : ∀ i, env.copy_err i = 0)
    (hroute : ∀ a, env.route_err a = 0) :
    ∀ (n i : Nat) (rt : Option Nat) (err : Int) (ssk : swift_sock) (out : List xmit_skb),
      (∀ j, i ≤ j → j < i + n →
        (swift_addr.dests j).port ≠ 0 ∧ (swift_addr.dests j).port < 256) →
      (swift_sendmsg_loop host env sport swift_addr iov n i rt err ssk out).2.1.map
          xmit_skb.data =
        out.map xmit_skb.data ++ (List.range' i n).map (fun j =>
          swift_put_hdr host sport (swift_addr.dests j).port (iov.getD j []).length ++
            iov.getD j []) := by
  intro n
  induction n with
  | zero => intro i rt err ssk out _; simp [swift_sendmsg_loop]
  | succ n ih =>
    intro i rt err ssk out hp
    have hpi := hp i (Nat.le_refl i) (by omega)
    have hcond : ¬ ((swift_addr.dests i).port = 0 ∨ MAX_SWIFT_PORT ≤ (swift_addr.dests i).port) := by
      simp only [MAX_SWIFT_PORT]; omega
    have hrest : ∀ j, i + 1 ≤ j → j < i + 1 + n →
        (swift_addr.dests j).port ≠ 0 ∧ (swift_addr.dests j).port < 256 :=
      fun j h1 h2 => hp j (by omega) (by omega)
    cases rt with
    | none =>
      simp only [swift_sendmsg_loop, if_neg hcond, halloc, hcopy, hroute, ne_eq,
        not_true_eq_false, if_false]
      rw [ih (i + 1) _ _ _ _ hrest]
      simp [List.range'_succ]
    | some r =>
      simp only [swift_sendmsg_loop, if_neg hcond, halloc, hcopy, ne_eq,
        not_true_eq_false, if_false]
      rw [ih (i + 1) _ _ _ _ hrest]
      simp [List.range'_succ]

/-- A non-negative value that fits `size_t` is unchanged by the conversion. -/
theorem to_size_t_natCast (D : Nat) (h : D < 2 ^ 64) : to_size_t (D : Int) = D := by
  unfold to_size_t SIZE_T_MOD
  have h2 : ((D : Int)) % ((2 ^ 64 : Nat) : Int) = (D : Int) := by
    norm_cast
    exact Nat.mod_eq_of_lt h
  rw [h2]
  exact Int.toNat_natCast D

/-- What the scan of `get_next_free_port` returns: 0 when every slot of
`[i, i + n)` is taken, and otherwise the lowest free slot of that range. -/
theorem get_next_free_port_loop_spec (map : Nat → Option Nat) :
    ∀ (n i : Nat), i + n ≤ 256 →
      (get_next_free_port_loop map i n = 0 ∧ ∀ j, i ≤ j → j < i + n → map j ≠ none) ∨
      (i ≤ get_next_free_port_loop map i n ∧ get_next_free_port_loop map i n < i + n ∧
        map (get_next_free_port_loop map i n) = none ∧
        ∀ j, i ≤ j → j < get_next_free_port_loop map i n → map j ≠ none) := by
  intro n
  induction n with
  | zero =>
    intro i _
    left
    exact ⟨rfl, fun j h1 h2 => by omega⟩
  | succ n ih =>
    intro i hi
    by_cases hfree : map i = none
    · right
      have hmod : i % 256 = i := Nat.mod_eq_of_lt (by omega)
      simp only [get_next_free_port_loop, if_pos hfree, hmod]
      exact ⟨Nat.le_refl i, by omega, hfree, fun j h1 h2 => by omega⟩
    · simp only [get_next_free_port_loop, if_neg hfree]
      rcases ih (i + 1) (by omega) with ⟨h0, hall⟩ | ⟨h1, h2, h3, h4⟩
      · left
        refine ⟨h0, fun j hj1 hj2 => ?_⟩
        by_cases hji : j = i
        · rw [hji]; exact hfree
        · exact hall j (by omega) (by omega)
      · right
        refine ⟨by omega, by omega, h3, fun j hj1 hj2 => ?_⟩
        by_cases hji : j = i
        · rw [hji]; exact hfree
        · exact h4 j (by omega) hj2

/-- With every port of [1, 255] taken the scan finds nothing. -/
theorem get_next_free_port_full_state : get_next_free_port 1 full_state.sock_port_map = 0 := by
  have hspec := get_next_free_port_loop_spec full_state.sock_port_map 255 1 (by omega)
  unfold get_next_free_port
  rw [show MAX_SWIFT_PORT - 1 = 255 from rfl]
  generalize get_next_free_port_loop full_state.sock_port_map 1 255 = q at hspec
  rcases hspec with ⟨h0, _⟩ | ⟨h1, h2, h3, _⟩
  · exact h0
  · exfalso
    have h4 : q ≤ 255 := by omega
    simp only [full_state, if_pos (And.intro h1 h4)] at h3
    cases h3

/-- A single-destination send that returns 0 handed exactly one buffer to the IP
layer: the header for (`ssk.src`, `dests[0].port`) followed by the payload.  The
port table and every other socket are untouched. -/
theorem swift_sendmsg_single (host : Endian) (MIN_SWIFT_PORT : Nat) (env : send_env)
    (st st1 : State) (sock : Nat) (ssk : swift_sock) (swift_addr : sockaddr_swift)
    (namelen mflags : Nat) (P : List Nat) (err0 : Int) (out : List xmit_skb)
    (hsk : st.sk sock = some ssk) (hsrc : ssk.src ≠ 0) (hcnt : swift_addr.count = 1)
    (hsend : swift_sendmsg host MIN_SWIFT_PORT env st sock
      { msg_name := some swift_addr, msg_namelen := namelen, msg_iov := [P],
        msg_flags := mflags } err0 = some (st1, out, 0)) :
    (∃ rt, out = [{ data := swift_put_hdr host ssk.src (swift_addr.dests 0).port P.length ++ P,
                    rt := rt }]) ∧
    st1.sock_port_map = st.sock_port_map ∧ (∀ j, j ≠ sock → st1.sk j = st.sk j) := by
  have hE : (-EINVAL : Int) ≠ 0 := by decide
  have hsz : to_size_t swift_addr.count = 1 := by
    rw [hcnt]; exact to_size_t_natCast 1 (by norm_num)
  simp only [swift_sendmsg, hsk, if_neg hsrc, hsz] at hsend
  by_cases hbad : bad_name_len swift_addr namelen
  · rw [if_pos hbad] at hsend
    simp only [Option.some.injEq, Prod.mk.injEq] at hsend
    exact absurd hsend.2.2 hE
  rw [if_neg hbad] at hsend
  simp only [List.length_singleton, lt_self_iff_false, if_false, swift_sendmsg_loop,
    List.getD_cons_zero, List.nil_append] at hsend
  by_cases h1 : (swift_addr.dests 0).port = 0 ∨ MAX_SWIFT_PORT ≤ (swift_addr.dests 0).port
  · rw [if_pos h1] at hsend
    simp only [Option.some.injEq, Prod.mk.injEq] at hsend
    exact absurd hsend.2.2 hE
  rw [if_neg h1] at hsend
  by_cases h2 : env.alloc_err 0 ≠ 0
  · rw [if_pos h2] at hsend
    simp only [Option.some.injEq, Prod.mk.injEq] at hsend
    exact absurd hsend.2.2 h2
  rw [if_neg h2] at hsend
  by_cases h3 : env.copy_err 0 ≠ 0
  · rw [if_pos h3] at hsend
    simp only [Option.some.injEq, Prod.mk.injEq] at hsend
    exact absurd hsend.2.2 h3
  rw [if_neg h3] at hsend
  by_cases h4 : env.route_err (swift_addr.dests 0).addr ≠ 0
  · rw [if_pos h4] at hsend
    simp only [Option.some.injEq, Prod.mk.injEq] at hsend
    exact absurd hsend.2.2 h4
  rw [if_neg h4] at hsend
  simp only [Option.some.injEq, Prod.mk.injEq] at hsend
  obtain ⟨hst, hout, _⟩ := hsend
  refine ⟨⟨_, hout.symm⟩, ?_, ?_⟩
  · rw [← hst]; rfl
  · intro j hj
    rw [← hst]
    simp only [State.set_sk, if_neg hj]

/-- The declared length read back from a header written by the send path. -/
theorem swift_hdr_len_put_hdr (host : Endian) (sport dport : Nat) (P : List Nat)
    (h : P.length + 4 < 65536) :
    swift_hdr_len host (swift_put_hdr host sport dport P.length ++ P) = P.length + 4 := by
  rw [swift_put_hdr_eq host sport dport P.length h]
  simp only [swift_hdr_len, List.cons_append, List.nil_append, List.getD_cons_succ,
    List.getD_cons_zero]
  rw [ntohs_load16 host _ _ (by omega) (by omega)]
  omega

/-- The inbound handler on a datagram built by the send path: with valid ports,
a socket under the destination port and a receive queue that takes the buffer,
the payload is queued at the tail with the source port and source address. -/
theorem swift_rcv_put_hdr (host : Endian) (st : State) (a b saddr id : Nat) (P : List Nat)
    (cb : swift_dest) (ssk : swift_sock)
    (ha : 1 ≤ a ∧ a ≤ 255) (hb : 1 ≤ b ∧ b ≤ 255) (hP : P.length ≤ 65531)
    (hmap : st.sock_port_map b = some id) (hsk : st.sk id = some ssk) :
    swift_rcv host st
        { data := swift_put_hdr host a b P.length ++ P, saddr := saddr, cb := cb } 0 =
      some (st.set_sk id (some { ssk with
          sk_receive_queue := ssk.sk_receive_queue ++
            [{ data := P, saddr := saddr, cb := { cb with port := a, addr := saddr } }] }),
        NET_RX_SUCCESS) := by
  have hlen : swift_hdr_len host (swift_put_hdr host a b P.length ++ P) = P.length + 4 :=
    swift_hdr_len_put_hdr host a b P (by omega)
  have hdata : swift_put_hdr host a b P.length ++ P =
      a :: b :: ((P.length + 4) / 256) :: ((P.length + 4) % 256) :: P := by
    rw [swift_put_hdr_eq host a b P.length (by omega)]; rfl
  have htrim : pskb_trim P P.length = P := by
    simp only [pskb_trim, lt_self_iff_false, if_false]
  simp only [swift_rcv, hlen, SIZEOF_SWIFTHDR, MAX_SWIFT_PORT, swift_lookup]
  simp only [hdata, List.length_cons, List.getD_cons_zero, List.getD_cons_succ,
    List.drop_succ_cons, List.drop_zero, Nat.add_sub_cancel, htrim]
  rw [if_neg (by omega), if_neg (by omega), if_neg (by omega), if_neg (by omega)]
  simp only [hmap, hsk, ne_eq, not_true_eq_false, if_false]

/-- A `swift_recvmsg` call with one buffer on a socket whose queue holds a single
datagram that fits the buffer, with an out-address record and a copy that
succeeds. -/
theorem swift_recvmsg_single (copy_err : Nat → Int) (st : State) (sock : Nat)
    (ssk : swift_sock) (skb : sk_buff) (ret_addr : sockaddr_swift)
    (rnamelen rflags flags : Nat) (buf : List Nat) (err1 : Int)
    (hsk : st.sk sock = some ssk) (hq : ssk.sk_receive_queue = [skb])
    (hbuf : skb.data.length ≤ buf.length) (hcopy : copy_err 0 = 0) :
    swift_recvmsg copy_err st sock
        { msg_name := some ret_addr, msg_namelen := rnamelen, msg_iov := [buf],
          msg_flags := rflags } flags err1 =
      recv_outcome.done
        { st := st.set_sk sock (some { ssk with sk_receive_queue := [] }),
          msg :=
            { msg_name := some
                { count := 1,
                  dests := fun j => if j = 0 then { skb.cb with bytes := skb.data.length }
                    else ret_addr.dests j },
              msg_namelen := 16,
              msg_iov := [skb.data ++ buf.drop skb.data.length],
              msg_flags := rflags },
          ret := skb.data.length,
          held := none } := by
  have hnt : ¬ buf.length < skb.data.length := by omega
  simp only [swift_recvmsg, hsk, hq, List.length_singleton, swift_recvmsg_loop,
    List.getD_cons_zero, hcopy, if_neg hnt, ne_eq, not_true_eq_false, if_false,
    write_ret_addr, set_iov, List.set_cons_zero, List.take_length, SIZEOF_SOCKADDR_SWIFT,
    SIZEOF_SWIFT_DEST]
  rfl

/-- What `get_next_free_port` returns when `MIN_SWIFT_PORT ≥ 1`: the lowest free
port of `[MIN_SWIFT_PORT, 255]` if there is one, and 0 if there is none. -/
theorem get_next_free_port_spec (MIN_SWIFT_PORT : Nat) (map : Nat → Option Nat)
    (hMIN : 1 ≤ MIN_SWIFT_PORT) :
    (∀ q, MIN_SWIFT_PORT ≤ q → q ≤ 255 → map q = none →
      (∀ j, MIN_SWIFT_PORT ≤ j → j < q → map j ≠ none) →
      get_next_free_port MIN_SWIFT_PORT map = q) ∧
    ((∀ q, MIN_SWIFT_PORT ≤ q → q ≤ 255 → map q ≠ none) →
      get_next_free_port MIN_SWIFT_PORT map = 0) := by
  unfold get_next_free_port MAX_SWIFT_PORT
  by_cases hle : MIN_SWIFT_PORT ≤ 256
  · have hspec := get_next_free_port_loop_spec map (256 - MIN_SWIFT_PORT) MIN_SWIFT_PORT
      (by omega)
    generalize get_next_free_port_loop map MIN_SWIFT_PORT (256 - MIN_SWIFT_PORT) = r at hspec
    constructor
    · intro q h1 h2 h3 h4
      rcases hspec with ⟨_, hall⟩ | ⟨r1, r2, r3, r4⟩
      · exact absurd h3 (hall q h1 (by omega))
      · rcases Nat.lt_trichotomy r q with hlt | heq | hgt
        · exact absurd r3 (h4 r r1 hlt)
        · exact heq
        · exact absurd h3 (r4 q h1 hgt)
    · intro hall
      rcases hspec with ⟨h0, _⟩ | ⟨r1, r2, r3, _⟩
      · exact h0
      · exact absurd r3 (hall r r1 (by omega))
  · have hz : 256 - MIN_SWIFT_PORT = 0 := by omega
    rw [hz]
    constructor
    · intro q h1 h2 _ _
      omega
    · intro _
      rfl

/-- Writing one buffer of the gather vector leaves the others as they were. -/
theorem set_iov_getD_ne (iov : List (List Nat)) (i j : Nat) (b : List Nat) (h : j ≠ i) :
    (set_iov iov i b).getD j [] = iov.getD j [] := by
  simp only [set_iov, List.getD_eq_getElem?_getD]
  rw [List.getElem?_set_ne (Ne.symm h)]

/-- One iteration of the receive loop in terms of `recv_iter_copied`,
`recv_iter_msg` and `recv_iter_err`. -/
theorem swift_recvmsg_loop_succ (copy_err : Nat → Int) (n i : Nat) (skb : sk_buff)
    (err : Int) (msg : msghdr) (queue : List sk_buff) :
    swift_recvmsg_loop copy_err (n + 1) i skb err msg queue =
      match queue with
      | [] => { i := i, err := recv_iter_copied msg i skb,
                msg := recv_iter_msg copy_err msg i skb, queue := [], held := none }
      | next :: rest =>
        if recv_iter_err copy_err msg i skb = -EAGAIN then
          { i := i, err := recv_iter_copied msg i skb,
            msg := recv_iter_msg copy_err msg i skb, queue := rest, held := some next }
        else swift_recvmsg_loop copy_err n (i + 1) next (recv_iter_err copy_err msg i skb)
          (recv_iter_msg copy_err msg i skb) rest := by
  cases queue <;> rfl

/-- An iteration keeps an absent out-address record absent and a present one
present. -/
theorem recv_iter_msg_name (copy_err : Nat → Int) (msg : msghdr) (i : Nat) (skb : sk_buff) :
    (recv_iter_msg copy_err msg i skb).msg_name.isSome = msg.msg_name.isSome := by
  have hw : ∀ (o : Option sockaddr_swift) (k : Nat) (cb : swift_dest) (c : Nat),
      (write_ret_addr o k cb c).isSome = o.isSome := by
    intro o k cb c
    cases o <;> rfl
  unfold recv_iter_msg
  by_cases hc : copy_err i ≠ 0 <;>
    by_cases ht : (msg.msg_iov.getD i []).length < skb.data.length <;>
    simp only [if_pos, if_neg, hc, ht, ne_eq, if_true, if_false, not_true_eq_false,
      not_false_eq_true, hw]

/-- An iteration writes no buffer other than buffer `i`. -/
theorem recv_iter_msg_iov (copy_err : Nat → Int) (msg : msghdr) (i j : Nat) (skb : sk_buff)
    (h : j ≠ i) :
    (recv_iter_msg copy_err msg i skb).msg_iov.getD j [] = msg.msg_iov.getD j [] := by
  unfold recv_iter_msg
  by_cases hc : copy_err i ≠ 0 <;>
    by_cases ht : (msg.msg_iov.getD i []).length < skb.data.length <;>
    simp only [hc, ht, ne_eq, if_true, if_false, not_true_eq_false, not_false_eq_true,
      set_iov_getD_ne _ _ _ _ h]

/-- The loop of `swift_recvmsg` never turns an absent out-address record into a
present one, nor a present one into an absent one. -/
theorem swift_recvmsg_loop_name (copy_err : Nat → Int) :
    ∀ (n i : Nat) (skb : sk_buff) (err : Int) (msg : msghdr) (queue : List sk_buff),
      (swift_recvmsg_loop copy_err n i skb err msg queue).msg.msg_name.isSome =
        msg.msg_name.isSome := by
  intro n
  induction n with
  | zero => intro i skb err msg queue; rfl
  | succ n ih =>
    intro i skb err msg queue
    rw [swift_recvmsg_loop_succ]
    cases queue with
    | nil => exact recv_iter_msg_name copy_err msg i skb
    | cons next rest =>
      dsimp only
      split_ifs with hE
      · exact recv_iter_msg_name copy_err msg i skb
      · rw [ih]
        exact recv_iter_msg_name copy_err msg i skb

/-- The bytes copied in an iteration: the smaller of the datagram length and the
buffer length. -/
theorem recv_iter_copied_eq (msg : msghdr) (i : Nat) (skb : sk_buff) :
    recv_iter_copied msg i skb = min skb.data.length (msg.msg_iov.getD i []).length := by
  unfold recv_iter_copied
  split_ifs with h
  · exact (Nat.min_eq_right (Nat.le_of_lt h)).symm
  · exact (Nat.min_eq_left (Nat.le_of_not_lt h)).symm

/-- When every copy succeeds the value of `err` does not equal `-EAGAIN` after
the copy. -/
theorem recv_iter_err_ok (copy_err : Nat → Int) (hcopy : ∀ i, copy_err i = 0) (msg : msghdr)
    (i : Nat) (skb : sk_buff) :
    recv_iter_err copy_err msg i skb = (recv_iter_copied msg i skb : Int) ∧
      recv_iter_err copy_err msg i skb ≠ -EAGAIN := by
  have h1 : recv_iter_err copy_err msg i skb = (recv_iter_copied msg i skb : Int) := by
    simp only [recv_iter_err, hcopy, ne_eq, not_true_eq_false, if_false]
  refine ⟨h1, ?_⟩
  rw [h1]
  simp only [EAGAIN]
  omega

/-- The value of `err` when the loop of `swift_recvmsg` is left, every copy
succeeding: the bytes copied for the last datagram that was copied, which is
datagram number `min n (length queue)` of `skb :: queue` when `n + 1` buffers
are left. -/
theorem swift_recvmsg_loop_err (copy_err : Nat → Int) (hcopy : ∀ i, copy_err i = 0) :
    ∀ (n i : Nat) (skb : sk_buff) (err : Int) (msg : msghdr) (queue : List sk_buff),
      (swift_recvmsg_loop copy_err (n + 1) i skb err msg queue).err =
        ((min ((skb :: queue).getD (min n queue.length) no_skb).data.length
          (msg.msg_iov.getD (i + min n queue.length) []).length : Nat) : Int) := by
  intro n
  induction n with
  | zero =>
    intro i skb err msg queue
    rw [swift_recvmsg_loop_succ]
    cases queue with
    | nil =>
      simp only [recv_iter_copied_eq, List.length_nil, Nat.min_self, List.getD_cons_zero,
        Nat.add_zero]
    | cons next rest =>
      dsimp only
      rw [if_neg (recv_iter_err_ok copy_err hcopy msg i skb).2]
      simp only [swift_recvmsg_loop, (recv_iter_err_ok copy_err hcopy msg i skb).1,
        recv_iter_copied_eq, Nat.zero_min, List.getD_cons_zero, Nat.add_zero]
  | succ n ih =>
    intro i skb err msg queue
    rw [swift_recvmsg_loop_succ]
    cases queue with
    | nil =>
      simp only [recv_iter_copied_eq, List.length_nil, Nat.min_zero, List.getD_cons_zero,
        Nat.add_zero]
    | cons next rest =>
      simp only [if_neg (recv_iter_err_ok copy_err hcopy msg i skb).2]
      rw [ih]
      have hmin : min (n + 1) (next :: rest).length = min n rest.length + 1 := by
        simp only [List.length_cons]; omega
      have hidx : i + 1 + min n rest.length ≠ i := by omega
      rw [hmin, List.getD_cons_succ, recv_iter_msg_iov copy_err msg i _ skb hidx]
      have e : i + (min n rest.length + 1) = i + 1 + min n rest.length := by omega
      rw [e]

/-- The result of `swift_connect` on a socket with `src = 0` when the record
passes the length test, the port is valid and no port is free. -/
theorem swift_connect_no_port (MIN_SWIFT_PORT : Nat) (st : State) (sock : Nat)
    (ssk : swift_sock) (swift_addr : sockaddr_swift) (addr_len : Nat)
    (hsk : st.sk sock = some ssk) (hsrc : ssk.src = 0)
    (hbad : ¬ bad_name_len swift_addr addr_len)
    (hport : ¬ ((swift_addr.dests 0).port = 0 ∨ MAX_SWIFT_PORT ≤ (swift_addr.dests 0).port))
    (hfull : get_next_free_port MIN_SWIFT_PORT st.sock_port_map = 0) :
    swift_connect MIN_SWIFT_PORT st sock (some swift_addr) addr_len =
      (st.set_sk sock (some { ssk with
          dst := (swift_addr.dests 0).port, inet_daddr := (swift_addr.dests 0).addr, src := 0 }),
        -ENOMEM) := by
  have hs : ¬ ssk.src ≠ 0 := by
    simp only [hsrc, ne_eq, not_true_eq_false, not_false_eq_true]
  simp only [swift_connect, hsk, if_neg hs, if_neg hbad, if_neg hport, hfull, if_true]

/-- A non-zero result of `get_next_free_port` is a free slot. -/
theorem get_next_free_port_free (MIN_SWIFT_PORT : Nat) (map : Nat → Option Nat)
    (h : get_next_free_port MIN_SWIFT_PORT map ≠ 0) :
    map (get_next_free_port MIN_SWIFT_PORT map) = none := by
  unfold get_next_free_port MAX_SWIFT_PORT at h ⊢
  by_cases hle : MIN_SWIFT_PORT ≤ 256
  · have hspec := get_next_free_port_loop_spec map (256 - MIN_SWIFT_PORT) MIN_SWIFT_PORT
      (by omega)
    generalize get_next_free_port_loop map MIN_SWIFT_PORT (256 - MIN_SWIFT_PORT) = r at hspec h
    rcases hspec with ⟨h0, _⟩ | ⟨_, _, r3, _⟩
    · exact absurd h0 h
    · exact r3
  · have hz : 256 - MIN_SWIFT_PORT = 0 := by omega
    rw [hz] at h
    exact absurd rfl h

/-- The loop of `swift_sendmsg` leaves the `src` of the sending socket alone. -/
theorem swift_sendmsg_loop_src (host : Endian) (env : send_env) (sport : Nat)
    (swift_addr : sockaddr_swift) (iov : List (List Nat)) :
    ∀ (n i : Nat) (rt : Option Nat) (err : Int) (ssk : swift_sock) (out : List xmit_skb),
      (swift_sendmsg_loop host env sport swift_addr iov n i rt err ssk out).1.src = ssk.src := by
  intro n
  induction n with
  | zero => intro i rt err ssk out; rfl
  | succ n ih =>
    intro i rt err ssk out
    cases rt with
    | none =>
      unfold swift_sendmsg_loop
      dsimp only
      split_ifs
      all_goals first
        | rfl
        | rw [ih]
    | some r =>
      unfold swift_sendmsg_loop
      dsimp only
      split_ifs
      all_goals first
        | rfl
        | rw [ih]

/-- Replacing a socket by one with the same `src` keeps `src_in_table`. -/
theorem src_in_table_set_sk (st : State) (id : Nat) (s s1 : swift_sock)
    (hinv : src_in_table st) (hs : st.sk id = some s) (hsrc : s1.src = s.src) :
    src_in_table (st.set_sk id (some s1)) := by
  intro j t hj ht
  simp only [State.set_sk] at hj ⊢
  by_cases hji : j = id
  · rw [if_pos hji] at hj
    cases hj
    rw [hji, hsrc]
    exact hinv id s hs (by rw [← hsrc]; exact ht)
  · rw [if_neg hji] at hj
    exact hinv j t hj ht

/-- Giving a socket a free port as `src` and entering it in the table keeps
`src_in_table`. -/
theorem src_in_table_hash (st : State) (sock port : Nat) (s1 : swift_sock)
    (hinv : src_in_table st) (hfree : st.sock_port_map port = none) (hsrc : s1.src = port) :
    src_in_table { sock_port_map := swift_hash st.sock_port_map port sock,
                   sk := fun j => if j = sock then some s1 else st.sk j } := by
  intro j t hj ht
  simp only [swift_hash] at hj ⊢
  by_cases hji : j = sock
  · rw [if_pos hji] at hj
    cases hj
    rw [hsrc, if_pos rfl, hji]
  · rw [if_neg hji] at hj
    have hm := hinv j t hj ht
    have hne : t.src ≠ port := by
      intro he
      rw [he, hfree] at hm
      cases hm
    rw [if_neg hne]
    exact hm

/-- A call of `swift_bind` that returns keeps `src_in_table`. -/
theorem src_in_table_bind (st st1 : State) (sock : Nat) (addr : sockaddr_swift)
    (addr_len : Nat) (r : Int) (hinv : src_in_table st)
    (h : swift_bind st sock addr addr_len = some (st1, r)) : src_in_table st1 := by
  unfold swift_bind at h
  by_cases h1 : addr_len < SIZEOF_SOCKADDR_SWIFT
  · rw [if_pos h1] at h; cases h; exact hinv
  rw [if_neg h1] at h
  dsimp only at h
  by_cases h2 : (addr.dests 0).port = 0 ∨ MAX_SWIFT_PORT ≤ (addr.dests 0).port
  · rw [if_pos h2] at h; cases h; exact hinv
  rw [if_neg h2] at h
  by_cases h3 : swift_lookup st.sock_port_map (addr.dests 0).port ≠ none
  · rw [if_pos h3] at h; cases h; exact hinv
  rw [if_neg h3] at h
  have hfree : st.sock_port_map (addr.dests 0).port = none := by
    simpa only [swift_lookup, ne_eq, not_not] using h3
  cases hs : st.sk sock with
  | none => rw [hs] at h; cases h
  | some ssk =>
    rw [hs] at h
    dsimp only at h
    cases h
    exact src_in_table_hash st sock (addr.dests 0).port _ hinv hfree rfl

/-- A call of `swift_connect` keeps `src_in_table`. -/
theorem src_in_table_connect (MIN_SWIFT_PORT : Nat) (st : State) (sock : Nat)
    (addr : Option sockaddr_swift) (addr_len : Nat) (hinv : src_in_table st) :
    src_in_table (swift_connect MIN_SWIFT_PORT st sock addr addr_len).1 := by
  unfold swift_connect
  cases hs : st.sk sock with
  | none => exact hinv
  | some ssk =>
    dsimp only
    by_cases h1 : ssk.src ≠ 0
    · rw [if_pos h1]; exact hinv
    rw [if_neg h1]
    have hsrc0 : ssk.src = 0 := by
      simpa only [ne_eq, not_not] using h1
    cases addr with
    | none => exact hinv
    | some swift_addr =>
      dsimp only
      by_cases h2 : bad_name_len swift_addr addr_len
      · rw [if_pos h2]; exact hinv
      rw [if_neg h2]
      by_cases h3 : (swift_addr.dests 0).port = 0 ∨ MAX_SWIFT_PORT ≤ (swift_addr.dests 0).port
      · rw [if_pos h3]
        exact src_in_table_set_sk st sock ssk _ hinv hs rfl
      rw [if_neg h3]
      by_cases h4 : get_next_free_port MIN_SWIFT_PORT st.sock_port_map = 0
      · rw [if_pos h4]
        exact src_in_table_set_sk st sock ssk _ hinv hs (by rw [hsrc0]; exact h4)
      rw [if_neg h4]
      exact src_in_table_hash st sock _ _ hinv
        (get_next_free_port_free MIN_SWIFT_PORT st.sock_port_map h4) rfl

/-- A call of `swift_sendmsg` that returns keeps `src_in_table`. -/
theorem src_in_table_sendmsg (host : Endian) (MIN_SWIFT_PORT : Nat) (env : send_env)
    (st st1 : State) (sock : Nat) (msg : msghdr) (err0 : Int) (r : List xmit_skb × Int)
    (hinv : src_in_table st)
    (h : swift_sendmsg host MIN_SWIFT_PORT env st sock msg err0 = some (st1, r)) :
    src_in_table st1 := by
  unfold swift_sendmsg at h
  cases hs : st.sk sock with
  | none => rw [hs] at h; cases h; exact hinv
  | some ssk =>
    rw [hs] at h
    dsimp only at h
    by_cases h1 : (if ssk.src = 0 then get_next_free_port MIN_SWIFT_PORT st.sock_port_map
        else ssk.src) = 0
    · rw [if_pos h1] at h; cases h; exact hinv
    rw [if_neg h1] at h
    cases hn : msg.msg_name with
    | none => rw [hn] at h; cases h
    | some swift_addr =>
      rw [hn] at h
      dsimp only at h
      by_cases h2 : bad_name_len swift_addr msg.msg_namelen
      · rw [if_pos h2] at h; cases h; exact hinv
      rw [if_neg h2] at h
      cases h
      exact src_in_table_set_sk st sock ssk _ hinv hs
        (swift_sendmsg_loop_src host env _ swift_addr msg.msg_iov _ 0 none err0 ssk [])

/-- A call of `swift_recvmsg` that returns keeps `src_in_table`. -/
theorem src_in_table_recvmsg (copy_err : Nat → Int) (st : State) (sock : Nat) (msg : msghdr)
    (flags : Nat) (err0 : Int) (r : recv_result) (hinv : src_in_table st)
    (h : swift_recvmsg copy_err st sock msg flags err0 = recv_outcome.done r) :
    src_in_table r.st := by
  unfold swift_recvmsg at h
  cases hs : st.sk sock with
  | none => rw [hs] at h; cases h
  | some ssk =>
    rw [hs] at h
    dsimp only at h
    cases hq : ssk.sk_receive_queue with
    | nil =>
      rw [hq] at h
      dsimp only at h
      split_ifs at h
      · cases h; exact hinv
    | cons skb queue =>
      rw [hq] at h
      dsimp only at h
      cases hn : (swift_recvmsg_loop copy_err msg.msg_iov.length 0 skb err0 msg queue).msg.msg_name with
      | none => rw [hn] at h; cases h
      | some ra =>
        rw [hn] at h
        dsimp only at h
        cases h
        exact src_in_table_set_sk st sock ssk _ hinv hs rfl

/-- A call of `swift_rcv` that returns keeps `src_in_table`. -/
theorem src_in_table_rcv (host : Endian) (st st1 : State) (skb : sk_buff) (queue_err r : Int)
    (hinv : src_in_table st) (h : swift_rcv host st skb queue_err = some (st1, r)) :
    src_in_table st1 := by
  unfold swift_rcv at h
  dsimp only at h
  by_cases h1 : skb.data.length < SIZEOF_SWIFTHDR
  · rw [if_pos h1] at h; cases h; exact hinv
  rw [if_neg h1] at h
  by_cases h2 : skb.data.length < swift_hdr_len host skb.data
  · rw [if_pos h2] at h; cases h; exact hinv
  rw [if_neg h2] at h
  by_cases h3 : swift_hdr_len host skb.data < SIZEOF_SWIFTHDR
  · rw [if_pos h3] at h; cases h; exact hinv
  rw [if_neg h3] at h
  by_cases h4 : skb.data.getD 0 0 = 0 ∨ skb.data.getD 1 0 = 0 ∨
      MAX_SWIFT_PORT ≤ skb.data.getD 0 0 ∨ MAX_SWIFT_PORT ≤ skb.data.getD 1 0
  · rw [if_pos h4] at h; cases h; exact hinv
  rw [if_neg h4] at h
  cases hm : swift_lookup st.sock_port_map (skb.data.getD 1 0) with
  | none => rw [hm] at h; cases h; exact hinv
  | some id =>
    rw [hm] at h
    dsimp only at h
    cases hs : st.sk id with
    | none => rw [hs] at h; cases h
    | some ssk =>
      rw [hs] at h
      dsimp only at h
      by_cases h5 : queue_err ≠ 0
      · rw [if_pos h5] at h; cases h; exact hinv
      rw [if_neg h5] at h
      cases h
      exact src_in_table_set_sk st id ssk _ hinv hs rfl

/-- A call of `swift_release` keeps `src_in_table`. -/
theorem src_in_table_release (st : State) (sock : Nat) (hinv : src_in_table st) :
    src_in_table (swift_release st sock).1 := by
  unfold swift_release
  cases hs : st.sk sock with
  | none => exact hinv
  | some ssk =>
    intro j t hj ht
    simp only [swift_unhash] at hj ⊢
    by_cases hji : j = sock
    · rw [if_pos hji] at hj; cases hj
    · rw [if_neg hji] at hj
      have hm := hinv j t hj ht
      have hne : t.src ≠ ssk.src := by
        intro he
        have hm2 := hinv sock ssk hs (by rw [← he]; exact ht)
        rw [he, hm2] at hm
        cases hm
        exact hji rfl
      rw [if_neg hne]
      exact hm

/-- Creating a socket keeps `src_in_table`. -/
theorem src_in_table_create (st : State) (id : Nat) (hinv : src_in_table st) :
    src_in_table (swift_create st id) := by
  intro j t hj ht
  simp only [swift_create, State.set_sk] at hj ⊢
  by_cases hji : j = id
  · rw [if_pos hji] at hj
    cases hj
    exact absurd rfl ht
  · rw [if_neg hji] at hj
    exact hinv j t hj ht

/-- Every call that returns keeps `src_in_table`. -/
theorem src_in_table_apply_call (host : Endian) (MIN_SWIFT_PORT : Nat) (st st1 : State)
    (c : call) (hinv : src_in_table st)
    (h : apply_call host MIN_SWIFT_PORT st c = some st1) : src_in_table st1 := by
  cases c with
  | create id =>
    simp only [apply_call] at h
    cases hs : st.sk id with
    | none =>
      rw [hs] at h
      cases h
      exact src_in_table_create st id hinv
    | some s => rw [hs] at h; cases h
  | bind sock addr addr_len =>
    simp only [apply_call] at h
    cases hb : swift_bind st sock addr addr_len with
    | none => rw [hb] at h; cases h
    | some r =>
      rw [hb] at h
      cases h
      exact src_in_table_bind st r.1 sock addr addr_len r.2 hinv hb
  | connect sock addr addr_len =>
    simp only [apply_call, Option.some.injEq] at h
    rw [← h]
    exact src_in_table_connect MIN_SWIFT_PORT st sock addr addr_len hinv
  | sendmsg env sock msg err0 =>
    simp only [apply_call] at h
    cases hb : swift_sendmsg host MIN_SWIFT_PORT env st sock msg err0 with
    | none => rw [hb] at h; cases h
    | some r =>
      rw [hb] at h
      cases h
      exact src_in_table_sendmsg host MIN_SWIFT_PORT env st r.1 sock msg err0 r.2 hinv hb
  | recvmsg copy_err sock msg flags err0 =>
    simp only [apply_call] at h
    cases hb : swift_recvmsg copy_err st sock msg flags err0 with
    | done r =>
      rw [hb] at h
      cases h
      exact src_in_table_recvmsg copy_err st sock msg flags err0 r hinv hb
    | blocks => rw [hb] at h; cases h
    | oops => rw [hb] at h; cases h
  | rcv skb queue_err =>
    simp only [apply_call] at h
    cases hb : swift_rcv host st skb queue_err with
    | none => rw [hb] at h; cases h
    | some r =>
      rw [hb] at h
      cases h
      exact src_in_table_rcv host st r.1 skb queue_err r.2 hinv hb
  | release sock =>
    simp only [apply_call, Option.some.injEq] at h
    rw [← h]
    exact src_in_table_release st sock hinv

/-- A sequence of calls that all return keeps `src_in_table`. -/
theorem src_in_table_run_calls (host : Endian) (MIN_SWIFT_PORT : Nat) :
    ∀ (cs : List call) (st st1 : State), src_in_table st →
      run_calls host MIN_SWIFT_PORT st cs = some st1 → src_in_table st1 := by
  intro cs
  induction cs with
  | nil =>
    intro st st1 hinv h
    simp only [run_calls, Option.some.injEq] at h
    rw [← h]
    exact hinv
  | cons c cs ih =>
    intro st st1 hinv h
    simp only [run_calls] at h
    cases ha : apply_call host MIN_SWIFT_PORT st c with
    | none => rw [ha] at h; cases h
    | some st2 =>
      rw [ha] at h
      exact ih st2 st1 (src_in_table_apply_call host MIN_SWIFT_PORT st st2 c hinv ha) h

/-! ## Properties -/

/-- C1: whenever the buffer is shorter than 4 bytes, or its declared length is
below 4 or above the buffer length, or src or dst is outside [1, 255], or the
table has no socket for dst, `swift_rcv` returns NET_RX_DROP and leaves the
whole state (port table and every receive queue) unchanged; hence a socket's
queue changes only if all those conditions hold, the port table never changes,
and a datagram with dst = 0 is dropped. -/
theorem C1_rcv_validation (host : Endian) (st : State) (skb : sk_buff) (queue_err : Int) :
    (¬ rcv_valid host st skb → swift_rcv host st skb queue_err = some (st, NET_RX_DROP)) ∧
    (∀ st' r, swift_rcv host st skb queue_err = some (st', r) →
      st'.sock_port_map = st.sock_port_map ∧
      ((∃ id, st'.sk id ≠ st.sk id) → rcv_valid host st skb)) ∧
    (skb.data.getD 1 0 = 0 → swift_rcv host st skb queue_err = some (st, NET_RX_DROP)) := by
  have key : ¬ rcv_valid host st skb →
      swift_rcv host st skb queue_err = some (st, NET_RX_DROP) := by
    intro h
    simp only [swift_rcv, SIZEOF_SWIFTHDR, MAX_SWIFT_PORT, swift_lookup]
    by_cases h1 : skb.data.length < 4
    · rw [if_pos h1]
    rw [if_neg h1]
    by_cases h2 : skb.data.length < swift_hdr_len host skb.data
    · rw [if_pos h2]
    rw [if_neg h2]
    by_cases h3 : swift_hdr_len host skb.data < 4
    · rw [if_pos h3]
    rw [if_neg h3]
    by_cases h4 : skb.data.getD 0 0 = 0 ∨ skb.data.getD 1 0 = 0 ∨
        256 ≤ skb.data.getD 0 0 ∨ 256 ≤ skb.data.getD 1 0
    · rw [if_pos h4]
    rw [if_neg h4]
    cases hm : st.sock_port_map (skb.data.getD 1 0) with
    | none => rfl
    | some id =>
      exfalso
      apply h
      refine ⟨by omega, by omega, by omega, by omega, by omega, ?_⟩
      rw [hm]; exact Option.some_ne_none id
  refine ⟨key, ?_, ?_⟩
  · intro st' r hres
    constructor
    · by_cases hv : rcv_valid host st skb
      · obtain ⟨v1, v2, v3, v4, v5, v6⟩ := hv
        simp only [swift_rcv, SIZEOF_SWIFTHDR, MAX_SWIFT_PORT, swift_lookup] at hres
        rw [if_neg (by omega), if_neg (by omega), if_neg (by omega), if_neg (by omega)] at hres
        cases hm : st.sock_port_map (skb.data.getD 1 0) with
        | none => exact absurd hm v6
        | some id =>
          rw [hm] at hres
          dsimp only at hres
          cases hs : st.sk id with
          | none => rw [hs] at hres; cases hres
          | some ssk =>
            rw [hs] at hres
            dsimp only at hres
            by_cases hq : queue_err ≠ 0
            · rw [if_pos hq] at hres; cases hres; rfl
            · rw [if_neg hq] at hres; cases hres; rfl
      · rw [key hv] at hres
        cases hres
        rfl
    · rintro ⟨id, hid⟩
      by_contra hv
      rw [key hv] at hres
      cases hres
      exact hid rfl
  · intro h0
    apply key
    intro hv
    have := hv.2.2.2.2.1.1
    omega

/-- C1 at a concrete input: a 5-byte datagram with dst = 0 arriving at a host
with a socket bound to port 7 is dropped. -/
theorem C1_rcv_validation_witness :
    swift_rcv Endian.little
      { sock_port_map := fun p => if p = 7 then some 0 else none,
        sk := fun _ => some ⟨7, 0, 0, 0, [], none⟩ }
      { data := [9, 0, 0, 5, 42], saddr := 1, cb := ⟨0, 0, 0⟩ } 0 =
    some ({ sock_port_map := fun p => if p = 7 then some 0 else none,
            sk := fun _ => some ⟨7, 0, 0, 0, [], none⟩ }, NET_RX_DROP) :=
  (C1_rcv_validation Endian.little _ _ 0).2.2 (by decide)

/-- C2 (as amended): for a socket that has a source port (its `src`, or when
`src = 0` the lowest free port, which must exist), a target record with
`D ≥ 1` destinations that passes the length test and has all ports in
[1, 255], and `V` payloads of at most 65531 bytes each, if allocation, copy and
route lookup succeed then `swift_sendmsg` hands exactly `min D V` buffers to
the IP layer, in index order, the i-th being the header (source port,
`dests[i].port`, the two bytes of `4 + len(payload[i])`, high byte first)
followed by `payload[i]`. -/
theorem C2_sendmsg_fanout (host : Endian) (MIN_SWIFT_PORT : Nat) (env : send_env)
    (st : State) (sock : Nat) (ssk : swift_sock) (msg : msghdr)
    (swift_addr : sockaddr_swift) (D : Nat) (err0 : Int)
    (hsk : st.sk sock = some ssk)
    (hname : msg.msg_name = some swift_addr)
    (hD : swift_addr.count = (D : Int)) (hDint : D < 2 ^ 31)
    (hlenok : ¬ bad_name_len swift_addr msg.msg_namelen)
    (hports : ∀ i, i < D → 1 ≤ (swift_addr.dests i).port ∧ (swift_addr.dests i).port ≤ 255)
    (hpay : ∀ i, (msg.msg_iov.getD i []).length ≤ 65531)
    (halloc : ∀ i, env.alloc_err i = 0) (hcopy : ∀ i, env.copy_err i = 0)
    (hroute : ∀ a, env.route_err a = 0)
    (hsport : (if ssk.src = 0 then get_next_free_port MIN_SWIFT_PORT st.sock_port_map
      else ssk.src) ≠ 0) :
    ∃ st' out ret,
      swift_sendmsg host MIN_SWIFT_PORT env st sock msg err0 = some (st', out, ret) ∧
      out.length = min D msg.msg_iov.length ∧
      out.map xmit_skb.data = (List.range (min D msg.msg_iov.length)).map (fun i =>
        [if ssk.src = 0 then get_next_free_port MIN_SWIFT_PORT st.sock_port_map else ssk.src,
         (swift_addr.dests i).port,
         ((msg.msg_iov.getD i []).length + 4) / 256,
         ((msg.msg_iov.getD i []).length + 4) % 256] ++ msg.msg_iov.getD i []) := by
  have hsz : to_size_t swift_addr.count = D := by
    rw [hD]; exact to_size_t_natCast D (by omega)
  have hmin : (if msg.msg_iov.length < D then msg.msg_iov.length else D) =
      min D msg.msg_iov.length := by
    split_ifs with h
    · exact (Nat.min_eq_right (Nat.le_of_lt h)).symm
    · exact (Nat.min_eq_left (by omega)).symm
  have hdata := swift_sendmsg_loop_data host env
    (if ssk.src = 0 then get_next_free_port MIN_SWIFT_PORT st.sock_port_map else ssk.src)
    swift_addr msg.msg_iov halloc hcopy hroute (min D msg.msg_iov.length) 0 none err0 ssk []
    (fun j _ hj => by
      have hjD : j < D := by
        have := Nat.min_le_left D msg.msg_iov.length
        omega
      have := hports j hjD
      omega)
  have hmap : ∀ (l : List Nat) (f g : Nat → List Nat), (∀ i, f i = g i) → l.map f = l.map g :=
    fun l f g h => by rw [funext h]
  have heq : swift_sendmsg host MIN_SWIFT_PORT env st sock msg err0 =
      some (st.set_sk sock (some (swift_sendmsg_loop host env
        (if ssk.src = 0 then get_next_free_port MIN_SWIFT_PORT st.sock_port_map else ssk.src)
        swift_addr msg.msg_iov (min D msg.msg_iov.length) 0 none err0 ssk []).1),
        (swift_sendmsg_loop host env
        (if ssk.src = 0 then get_next_free_port MIN_SWIFT_PORT st.sock_port_map else ssk.src)
        swift_addr msg.msg_iov (min D msg.msg_iov.length) 0 none err0 ssk []).2.1,
        (swift_sendmsg_loop host env
        (if ssk.src = 0 then get_next_free_port MIN_SWIFT_PORT st.sock_port_map else ssk.src)
        swift_addr msg.msg_iov (min D msg.msg_iov.length) 0 none err0 ssk []).2.2) := by
    simp only [swift_sendmsg, hsk, hname, if_neg hsport, if_neg hlenok, hsz, hmin]
  refine ⟨_, _, _, heq, ?_, ?_⟩
  · have := congrArg List.length hdata
    simpa using this
  · rw [hdata, List.map_nil, List.nil_append, List.range_eq_range']
    apply hmap
    intro i
    rw [swift_put_hdr_eq host _ _ _ (by have := hpay i; omega)]

/-- C2 applied to a concrete call: socket 0 bound to port 10 sends "hi" and "x"
to ports 20 and 30. -/
theorem C2_sendmsg_fanout_witness :
    ∃ st' out ret,
      swift_sendmsg Endian.little 1 env_ok one_bound_state 0 two_dests_msg 0 =
        some (st', out, ret) ∧
      out.length = min 2 two_dests_msg.msg_iov.length ∧
      out.map xmit_skb.data = (List.range (min 2 two_dests_msg.msg_iov.length)).map (fun i =>
        [if (bound_sock 10).src = 0 then get_next_free_port 1 one_bound_state.sock_port_map
           else (bound_sock 10).src,
         (two_dests.dests i).port,
         ((two_dests_msg.msg_iov.getD i []).length + 4) / 256,
         ((two_dests_msg.msg_iov.getD i []).length + 4) % 256] ++
          two_dests_msg.msg_iov.getD i []) :=
  C2_sendmsg_fanout Endian.little 1 env_ok one_bound_state 0 (bound_sock 10) two_dests_msg
    two_dests 2 0 rfl rfl rfl (by decide) (by decide)
    (fun i hi => by
      rcases i with _ | _ | i
      · decide
      · decide
      · omega)
    (fun i => by
      rcases i with _ | _ | i
      · decide
      · decide
      · simp [two_dests_msg])
    (fun _ => rfl) (fun _ => rfl) (fun _ => rfl) (by decide)

/-- C2 as stated fails for a socket without a source port when no port is
free: the record is valid (two destinations, ports 20 and 30, full length),
both payloads are short and every kernel service succeeds, yet `swift_sendmsg`
returns `-ENOMEM` and hands nothing to the IP layer. -/
theorem C2_counterexample_no_free_port :
    full_state.sk 0 = some fresh_sock ∧
    two_dests_msg.msg_name = some two_dests ∧
    ¬ bad_name_len two_dests two_dests_msg.msg_namelen ∧
    min 2 two_dests_msg.msg_iov.length = 2 ∧
    swift_sendmsg Endian.little 1 env_ok full_state 0 two_dests_msg 0 =
      some (full_state, [], -ENOMEM) := by
  refine ⟨rfl, rfl, by decide, by decide, ?_⟩
  have hsk : full_state.sk 0 = some fresh_sock := rfl
  simp only [swift_sendmsg, hsk, fresh_sock, get_next_free_port_full_state, if_true]

/-- C3: sockets A and B bound to distinct ports `a` and `b`, B's queue empty.
If A's `swift_sendmsg` of one payload `P` (at most 65531 bytes) to one
destination with port `b` returns 0, it emitted one datagram; when that
datagram reaches `swift_rcv` with IP source address `saddr` (the receive queue
taking the buffer), a following `swift_recvmsg` on B with one buffer of
capacity at least `len P`, an out-address record and a copy that succeeds puts
exactly `P` at the start of the buffer, reports port `a`, address `saddr` and
`bytes = len P` in `dests[0]`, returns `len P` and leaves the message flags
(hence the truncated flag) as they were. -/
theorem C3_loopback_delivery (host : Endian) (MIN_SWIFT_PORT : Nat) (env : send_env)
    (st st1 : State) (sa sb a b saddr : Nat) (sskA sskB : swift_sock)
    (swift_addr ret_addr : sockaddr_swift) (namelen sflags rnamelen rflags flags : Nat)
    (P buf : List Nat) (err0 err1 : Int) (out : List xmit_skb) (cb : swift_dest)
    (copy_err : Nat → Int)
    (ha : 1 ≤ a ∧ a ≤ 255) (hb : 1 ≤ b ∧ b ≤ 255) (hab : a ≠ b)
    (hA : st.sk sa = some sskA) (hAsrc : sskA.src = a)
    (hB : st.sk sb = some sskB) (hBsrc : sskB.src = b) (hBmap : st.sock_port_map b = some sb)
    (hBq : sskB.sk_receive_queue = [])
    (hP : P.length ≤ 65531)
    (hcnt : swift_addr.count = 1) (hport : (swift_addr.dests 0).port = b)
    (hsend : swift_sendmsg host MIN_SWIFT_PORT env st sa
      { msg_name := some swift_addr, msg_namelen := namelen, msg_iov := [P],
        msg_flags := sflags } err0 = some (st1, out, 0))
    (hbuf : P.length ≤ buf.length) (hcopy : copy_err 0 = 0) :
    ∃ d st2 r ra,
      out = [d] ∧
      swift_rcv host st1 { data := d.data, saddr := saddr, cb := cb } 0 =
        some (st2, NET_RX_SUCCESS) ∧
      swift_recvmsg copy_err st2 sb
        { msg_name := some ret_addr, msg_namelen := rnamelen, msg_iov := [buf],
          msg_flags := rflags } flags err1 = recv_outcome.done r ∧
      (r.msg.msg_iov.getD 0 []).take P.length = P ∧
      r.msg.msg_name = some ra ∧
      (ra.dests 0).port = a ∧ (ra.dests 0).addr = saddr ∧ (ra.dests 0).bytes = P.length ∧
      r.msg.msg_flags = rflags ∧ r.ret = P.length := by
  have hne : sb ≠ sa := by
    intro h
    rw [h, hA] at hB
    cases hB
    omega
  obtain ⟨⟨rt, hout⟩, hmap1, hsk1⟩ := swift_sendmsg_single host MIN_SWIFT_PORT env st st1 sa
    sskA swift_addr namelen sflags P err0 out hA (by omega) hcnt hsend
  have hB1 : st1.sk sb = some sskB := by rw [hsk1 sb hne, hB]
  have hmapb : st1.sock_port_map b = some sb := by rw [hmap1, hBmap]
  have hrcv := swift_rcv_put_hdr host st1 a b saddr sb P cb sskB ha hb hP hmapb hB1
  rw [hAsrc, hport] at hout
  have hrecv := swift_recvmsg_single copy_err
    (st1.set_sk sb (some { sskB with
      sk_receive_queue := sskB.sk_receive_queue ++
        [{ data := P, saddr := saddr, cb := { cb with port := a, addr := saddr } }] }))
    sb { sskB with
      sk_receive_queue := sskB.sk_receive_queue ++
        [{ data := P, saddr := saddr, cb := { cb with port := a, addr := saddr } }] }
    { data := P, saddr := saddr, cb := { cb with port := a, addr := saddr } }
    ret_addr rnamelen rflags flags buf err1
    (by simp only [State.set_sk, if_true]) (by simp only [hBq, List.nil_append])
    hbuf hcopy
  refine ⟨_, _, _, _, hout, hrcv, hrecv, ?_, rfl, rfl, rfl, rfl, rfl, rfl⟩
  simp only [List.getD_cons_zero, List.take_left']

/-- C3 applied to the loopback scenario of the spec: A bound to 10 sends "hi"
to port 20, where B is bound; the datagram arrives with source address 1 and
B receives into a 4-byte buffer. -/
theorem C3_loopback_delivery_witness :
    ∃ d st2 r ra,
      [({ data := [10, 20, 0, 6, 104, 105], rt := some 1 } : xmit_skb)] = [d] ∧
      swift_rcv Endian.little
        (two_bound_state.set_sk 0 (some { bound_sock 10 with sk_dst_cache := some 1 }))
        { data := d.data, saddr := 1, cb := ⟨0, 0, 0⟩ } 0 = some (st2, NET_RX_SUCCESS) ∧
      swift_recvmsg (fun _ => 0) st2 1
        { msg_name := some zero_addr, msg_namelen := 16, msg_iov := [[0, 0, 0, 0]],
          msg_flags := 0 } 0 0 = recv_outcome.done r ∧
      (r.msg.msg_iov.getD 0 []).take [104, 105].length = [104, 105] ∧
      r.msg.msg_name = some ra ∧
      (ra.dests 0).port = 10 ∧ (ra.dests 0).addr = 1 ∧
      (ra.dests 0).bytes = [104, 105].length ∧
      r.msg.msg_flags = 0 ∧ r.ret = ([104, 105] : List Nat).length :=
  C3_loopback_delivery Endian.little 1 env_ok two_bound_state
    (two_bound_state.set_sk 0 (some { bound_sock 10 with sk_dst_cache := some 1 }))
    0 1 10 20 1 (bound_sock 10) (bound_sock 20) one_dest zero_addr 16 0 16 0 0
    [104, 105] [0, 0, 0, 0] 0 0 [{ data := [10, 20, 0, 6, 104, 105], rt := some 1 }]
    ⟨0, 0, 0⟩ (fun _ => 0)
    (by decide) (by decide) (by decide) rfl rfl rfl rfl rfl rfl (by decide) rfl rfl
    rfl (by decide) rfl

/-- C4 at K = 2, V = 1: with two datagrams queued, a `swift_recvmsg` call with a
single 4-byte buffer copies the first datagram into the buffer and returns, but
the queue is then empty: the second datagram was taken off the queue too (it is
the buffer still in `skb` when the loop ends) and was copied nowhere. -/
theorem C4_drain_takes_one_too_many :
    ∃ r, swift_recvmsg (fun _ => 0) two_queued_state 0
        { msg_name := some zero_addr, msg_namelen := 16, msg_iov := [[0, 0, 0, 0]],
          msg_flags := 0 } 0 0 = recv_outcome.done r ∧
      r.msg.msg_iov = [[1, 0, 0, 0]] ∧
      (r.st.sk 0).map swift_sock.sk_receive_queue = some [] ∧
      r.held = some { data := [2], saddr := 1, cb := ⟨1, 11, 0⟩ } ∧
      min 2 1 = 1 :=
  ⟨_, rfl, rfl, rfl, rfl, rfl⟩

/-- C5: when port `p` in [1, 255] is already mapped to a socket `A`, binding any
socket to `p` (with a record at least as long as the record header) returns
`-EADDRINUSE` and leaves the whole state unchanged: the port table, hence
`lookup(p) = A`, and every field of every socket. -/
theorem C5_bind_collision (st : State) (sock A p : Nat) (addr : sockaddr_swift)
    (addr_len : Nat) (hp : 1 ≤ p ∧ p ≤ 255) (hmap : st.sock_port_map p = some A)
    (hport : (addr.dests 0).port = p) (hlen : SIZEOF_SOCKADDR_SWIFT ≤ addr_len) :
    swift_bind st sock addr addr_len = some (st, -EADDRINUSE) ∧
      swift_lookup st.sock_port_map p = some A := by
  refine ⟨?_, hmap⟩
  have h1 : ¬ (p = 0 ∨ MAX_SWIFT_PORT ≤ p) := by
    simp only [MAX_SWIFT_PORT]; omega
  have h2 : swift_lookup st.sock_port_map p ≠ none := by
    simp only [swift_lookup, hmap, ne_eq, not_false_eq_true, reduceCtorEq]
  simp only [swift_bind, hport, if_neg (Nat.not_lt.mpr hlen), if_neg h1, if_pos h2]

/-- C5 applied to the scenario of the spec: socket 0 is bound to port 10 and
socket 1 tries to bind to port 10. -/
theorem C5_bind_collision_witness :
    swift_bind two_bound_state 1 { count := 1, dests := fun _ => ⟨0, 10, 0⟩ } 16 =
        some (two_bound_state, -EADDRINUSE) ∧
      swift_lookup two_bound_state.sock_port_map 10 = some 0 :=
  C5_bind_collision two_bound_state 1 0 10 { count := 1, dests := fun _ => ⟨0, 10, 0⟩ } 16
    (by decide) rfl rfl (by decide)

/-- C6: binding a socket to a free port `p` in [1, 255] returns 0, sets the
socket's `src` to `p` and maps `p` to the socket, every other slot being
unchanged; releasing the socket afterwards returns 0, empties slot `p` and
leaves every other slot as it was before the bind. -/
theorem C6_bind_then_release (st : State) (sock p : Nat) (ssk : swift_sock)
    (addr : sockaddr_swift) (addr_len : Nat)
    (hp : 1 ≤ p ∧ p ≤ 255) (hfree : st.sock_port_map p = none)
    (hsk : st.sk sock = some ssk)
    (hport : (addr.dests 0).port = p) (hlen : SIZEOF_SOCKADDR_SWIFT ≤ addr_len) :
    ∃ st1 ssk1,
      swift_bind st sock addr addr_len = some (st1, 0) ∧
      st1.sk sock = some ssk1 ∧ ssk1.src = p ∧
      swift_lookup st1.sock_port_map p = some sock ∧
      (∀ q, q ≠ p → st1.sock_port_map q = st.sock_port_map q) ∧
      (swift_release st1 sock).2 = 0 ∧
      swift_lookup (swift_release st1 sock).1.sock_port_map p = none ∧
      (∀ q, q ≠ p → (swift_release st1 sock).1.sock_port_map q = st.sock_port_map q) := by
  have h1 : ¬ (p = 0 ∨ MAX_SWIFT_PORT ≤ p) := by
    simp only [MAX_SWIFT_PORT]; omega
  have h2 : ¬ swift_lookup st.sock_port_map p ≠ none := by
    simp only [swift_lookup, hfree, ne_eq, not_true_eq_false, not_false_eq_true]
  have hb : swift_bind st sock addr addr_len =
      some ({ sock_port_map := swift_hash st.sock_port_map p sock,
              sk := fun j => if j = sock then
                some { ssk with sk_rcvbuf := 10 * 1024 * 1024, src := p } else st.sk j }, 0) := by
    simp only [swift_bind, hport, if_neg (Nat.not_lt.mpr hlen), if_neg h1, if_neg h2, hsk]
  refine ⟨_, { ssk with sk_rcvbuf := 10 * 1024 * 1024, src := p }, hb, ?_, rfl, ?_, ?_, ?_,
    ?_, ?_⟩
  · simp only [if_true]
  · simp only [swift_lookup, swift_hash, if_true]
  · intro q hq
    simp only [swift_hash, if_neg hq]
  · simp only [swift_release, if_true]
  · simp only [swift_release, if_true, swift_lookup, swift_unhash]
  · intro q hq
    simp only [swift_release, if_true, swift_unhash, swift_hash, if_neg hq]

/-- C6 applied to the scenario of the spec: a fresh socket binds to port 42 in an
empty table and is released. -/
theorem C6_bind_then_release_witness :
    ∃ st1 ssk1,
      swift_bind { sock_port_map := fun _ => none, sk := fun _ => some fresh_sock } 0
        { count := 1, dests := fun _ => ⟨0, 42, 0⟩ } 16 = some (st1, 0) ∧
      st1.sk 0 = some ssk1 ∧ ssk1.src = 42 ∧
      swift_lookup st1.sock_port_map 42 = some 0 ∧
      (∀ q, q ≠ 42 → st1.sock_port_map q = none) ∧
      (swift_release st1 0).2 = 0 ∧
      swift_lookup (swift_release st1 0).1.sock_port_map 42 = none ∧
      (∀ q, q ≠ 42 → (swift_release st1 0).1.sock_port_map q = none) :=
  C6_bind_then_release { sock_port_map := fun _ => none, sk := fun _ => some fresh_sock } 0 42
    fresh_sock { count := 1, dests := fun _ => ⟨0, 42, 0⟩ } 16 (by decide) rfl rfl rfl
    (by decide)

/-- C7 (as amended): `swift_bind` returns `-EINVAL` and leaves the whole state
(port table and sockets) unchanged whenever the passed length is shorter than
the record header, or the port of the first descriptor is outside [1, 255]. -/
theorem C7_bind_validation (st : State) (sock : Nat) (addr : sockaddr_swift) (addr_len : Nat)
    (h : addr_len < SIZEOF_SOCKADDR_SWIFT ∨ (addr.dests 0).port = 0 ∨
      255 < (addr.dests 0).port) :
    swift_bind st sock addr addr_len = some (st, -EINVAL) := by
  by_cases h1 : addr_len < SIZEOF_SOCKADDR_SWIFT
  · simp only [swift_bind, if_pos h1]
  · have h2 : (addr.dests 0).port = 0 ∨ MAX_SWIFT_PORT ≤ (addr.dests 0).port := by
      simp only [MAX_SWIFT_PORT]
      rcases h with h | h | h
      · exact absurd h h1
      · exact Or.inl h
      · exact Or.inr h
    simp only [swift_bind, if_neg h1, if_pos h2]

/-- C7 (as amended) applied to a record whose port is 0. -/
theorem C7_bind_validation_witness :
    swift_bind two_bound_state 1 { count := 1, dests := fun _ => ⟨0, 0, 0⟩ } 16 =
      some (two_bound_state, -EINVAL) :=
  C7_bind_validation two_bound_state 1 { count := 1, dests := fun _ => ⟨0, 0, 0⟩ } 16
    (Or.inr (Or.inl rfl))

/-- C7 as stated fails: a record whose count is 2 (passed with its full length
28, first port 42) is accepted by `swift_bind`, which returns 0 and maps port
42 to the socket. -/
theorem C7_counterexample_count_two :
    (swift_bind { sock_port_map := fun _ => none, sk := fun _ => some fresh_sock } 0
        { count := 2, dests := fun _ => ⟨0, 42, 0⟩ } 28).map
      (fun r => (r.2, r.1.sock_port_map 42, (r.1.sk 0).map swift_sock.src)) =
      some (0, some 0, some 42) := by
  rfl

/-- C8 (as amended): `swift_connect` returns `-EINVAL` whenever the socket
already has `src ≠ 0`, or the record is absent, or the passed length is shorter
than the record header or than count times the descriptor size, or the count is
not positive, or the port of the first destination is zero. -/
theorem C8_connect_validation (MIN_SWIFT_PORT : Nat) (st : State) (sock : Nat)
    (ssk : swift_sock) (addr : Option sockaddr_swift) (addr_len : Nat)
    (hsk : st.sk sock = some ssk)
    (hint : ∀ a, addr = some a → a.count < 2 ^ 31)
    (h : ssk.src ≠ 0 ∨ addr = none ∨
      ∃ a, addr = some a ∧
        (addr_len < SIZEOF_SOCKADDR_SWIFT ∨
         (addr_len : Int) < a.count * (SIZEOF_SWIFT_DEST : Int) ∨
         a.count ≤ 0 ∨ (a.dests 0).port = 0)) :
    (swift_connect MIN_SWIFT_PORT st sock addr addr_len).2 = -EINVAL := by
  by_cases hsrc : ssk.src ≠ 0
  · simp only [swift_connect, hsk, if_pos hsrc]
  cases addr with
  | none => simp only [swift_connect, hsk, if_neg hsrc]
  | some a =>
    have ha : addr_len < SIZEOF_SOCKADDR_SWIFT ∨
        (addr_len : Int) < a.count * (SIZEOF_SWIFT_DEST : Int) ∨
        a.count ≤ 0 ∨ (a.dests 0).port = 0 := by
      rcases h with h | h | ⟨a', h', h⟩
      · exact absurd h hsrc
      · cases h
      · cases h'; exact h
    have hlt := hint a rfl
    by_cases hbad : bad_name_len a addr_len
    · simp only [swift_connect, hsk, if_neg hsrc, if_pos hbad]
    · have hcnt : ¬ a.count ≤ 0 := fun hc => hbad (Or.inr (Or.inr hc))
      have hport : (a.dests 0).port = 0 := by
        rcases ha with h | h | h | h
        · exact absurd (Or.inl h) hbad
        · exfalso
          apply hbad
          right; left
          obtain ⟨c, hc⟩ := Int.eq_ofNat_of_zero_le (a := a.count) (by omega)
          have hc12 : a.count * (SIZEOF_SWIFT_DEST : Int) = ((c * 12 : Nat) : Int) := by
            rw [hc]; simp only [SIZEOF_SWIFT_DEST]; push_cast; rfl
          rw [hc12] at h ⊢
          rw [to_size_t_natCast (c * 12) (by omega)]
          exact_mod_cast h
        · exact absurd h hcnt
        · exact h
      simp only [swift_connect, hsk, if_neg hsrc, if_neg hbad, hport, true_or, if_true]

/-- C8 (as amended) applied to a socket that is already bound. -/
theorem C8_connect_validation_witness :
    (swift_connect 1 two_bound_state 0 (some one_dest) 16).2 = -EINVAL :=
  C8_connect_validation 1 two_bound_state 0 (bound_sock 10) (some one_dest) 16 rfl
    (fun a h => by cases h; decide) (Or.inl (by decide))

/-- C8 as stated fails: a fresh socket connecting to (address 0, port 5) with a
well-formed one-destination record gets 0, not `-EINVAL`; it ends up with
`dst = 5`, `daddr = 0` and the ephemeral source port 1. -/
theorem C8_counterexample_zero_address :
    ((swift_connect 1 { sock_port_map := fun _ => none, sk := fun _ => some fresh_sock } 0
        (some { count := 1, dests := fun _ => ⟨0, 5, 0⟩ }) 16).2,
     ((swift_connect 1 { sock_port_map := fun _ => none, sk := fun _ => some fresh_sock } 0
        (some { count := 1, dests := fun _ => ⟨0, 5, 0⟩ }) 16).1.sk 0).map
       (fun s => (s.src, s.dst, s.inet_daddr))) =
      (0, some (1, 5, 0)) := by
  rfl

/-- C9: for a fresh socket (`src = 0`) and a well-formed record (count at least
1, length at least header plus count descriptors) whose first destination has
port `d` in [1, 255] and address `a` (zero or not), with `MIN_SWIFT_PORT ≥ 1`:
if `q` is the lowest unused port of `[MIN_SWIFT_PORT, 255]`, `swift_connect`
returns 0, the socket has `dst = d`, `daddr = a`, `src = q`, slot `q` maps to
the socket and every other slot is unchanged; if no port of that range is
unused, `swift_connect` returns `-ENOMEM`. -/
theorem C9_connect_ephemeral (MIN_SWIFT_PORT : Nat) (st : State) (sock : Nat)
    (ssk : swift_sock) (swift_addr : sockaddr_swift) (addr_len d a : Nat)
    (hMIN : 1 ≤ MIN_SWIFT_PORT)
    (hsk : st.sk sock = some ssk) (hfresh : ssk.src = 0)
    (hcount : 1 ≤ swift_addr.count ∧ swift_addr.count < 2 ^ 31)
    (hlen : (SIZEOF_SOCKADDR_SWIFT : Int) + swift_addr.count * (SIZEOF_SWIFT_DEST : Int) ≤
      (addr_len : Int))
    (hd : 1 ≤ d ∧ d ≤ 255) (hport : (swift_addr.dests 0).port = d)
    (haddr : (swift_addr.dests 0).addr = a) :
    (∀ q, MIN_SWIFT_PORT ≤ q → q ≤ 255 → st.sock_port_map q = none →
      (∀ j, MIN_SWIFT_PORT ≤ j → j < q → st.sock_port_map j ≠ none) →
      ∃ st1 ssk1,
        swift_connect MIN_SWIFT_PORT st sock (some swift_addr) addr_len = (st1, 0) ∧
        st1.sk sock = some ssk1 ∧
        ssk1.dst = d ∧ ssk1.inet_daddr = a ∧ ssk1.src = q ∧
        swift_lookup st1.sock_port_map q = some sock ∧
        (∀ p, p ≠ q → st1.sock_port_map p = st.sock_port_map p)) ∧
    ((∀ q, MIN_SWIFT_PORT ≤ q → q ≤ 255 → st.sock_port_map q ≠ none) →
      (swift_connect MIN_SWIFT_PORT st sock (some swift_addr) addr_len).2 = -ENOMEM) := by
  have hsrc : ¬ ssk.src ≠ 0 := by simp only [hfresh, ne_eq, not_true_eq_false, not_false_eq_true]
  have hbad : ¬ bad_name_len swift_addr addr_len := by
    obtain ⟨c, hc⟩ := Int.eq_ofNat_of_zero_le (a := swift_addr.count) (by omega)
    have hc12 : swift_addr.count * (SIZEOF_SWIFT_DEST : Int) = ((c * 12 : Nat) : Int) := by
      rw [hc]; simp only [SIZEOF_SWIFT_DEST]; push_cast; rfl
    have hcpos : 1 ≤ c ∧ c < 2 ^ 31 := by omega
    have hlen' : 4 + c * 12 ≤ addr_len := by
      rw [hc12] at hlen
      simp only [SIZEOF_SOCKADDR_SWIFT] at hlen
      exact_mod_cast hlen
    rintro (h | h | h)
    · simp only [SIZEOF_SOCKADDR_SWIFT] at h; omega
    · rw [hc12, to_size_t_natCast (c * 12) (by omega)] at h; omega
    · omega
  have hdport : ¬ (d = 0 ∨ MAX_SWIFT_PORT ≤ d) := by
    simp only [MAX_SWIFT_PORT]; omega
  obtain ⟨hfound, hnone⟩ := get_next_free_port_spec MIN_SWIFT_PORT st.sock_port_map hMIN
  constructor
  · intro q h1 h2 h3 h4
    have hq := hfound q h1 h2 h3 h4
    have hq0 : ¬ q = 0 := by omega
    have hc : swift_connect MIN_SWIFT_PORT st sock (some swift_addr) addr_len =
        ({ sock_port_map := swift_hash st.sock_port_map q sock,
           sk := fun j => if j = sock then
             some { ssk with dst := d, inet_daddr := a, src := q } else st.sk j }, 0) := by
      simp only [swift_connect, hsk, if_neg hsrc, if_neg hbad, if_neg hdport, hq, if_neg hq0,
        hport, haddr]
    refine ⟨_, { ssk with dst := d, inet_daddr := a, src := q }, hc, ?_, rfl, rfl, rfl, ?_, ?_⟩
    · simp only [if_true]
    · simp only [swift_lookup, swift_hash, if_true]
    · intro p hp
      simp only [swift_hash, if_neg hp]
  · intro hall
    have hq := hnone hall
    simp only [swift_connect, hsk, if_neg hsrc, if_neg hbad, hport, if_neg hdport, hq, if_true]

/-- C9 applied to two concrete calls: a fresh socket connects to (address 1,
port 20) while ports 10 and 20 are bound and `MIN_SWIFT_PORT = 1`, getting
source port 1; and the same call when every port is taken returns `-ENOMEM`. -/
theorem C9_connect_ephemeral_witness :
    (∃ st1 ssk1,
      swift_connect 1 (two_bound_state.set_sk 2 (some fresh_sock)) 2 (some one_dest) 16 =
        (st1, 0) ∧
      st1.sk 2 = some ssk1 ∧ ssk1.dst = 20 ∧ ssk1.inet_daddr = 1 ∧ ssk1.src = 1 ∧
      swift_lookup st1.sock_port_map 1 = some 2 ∧
      (∀ p, p ≠ 1 → st1.sock_port_map p =
        (two_bound_state.set_sk 2 (some fresh_sock)).sock_port_map p)) ∧
    (swift_connect 1 full_state 0 (some one_dest) 16).2 = -ENOMEM :=
  ⟨(C9_connect_ephemeral 1 (two_bound_state.set_sk 2 (some fresh_sock)) 2 fresh_sock one_dest
      16 20 1 (by decide) rfl rfl (by decide) (by decide) (by decide) rfl rfl).1
      1 (by decide) (by decide) rfl (fun j h1 h2 => by omega),
   (C9_connect_ephemeral 1 full_state 0 fresh_sock one_dest
      16 20 1 (by decide) rfl rfl (by decide) (by decide) (by decide) rfl rfl).2
      (fun q h1 h2 => by
        simp only [full_state, if_pos (And.intro h1 h2), ne_eq, not_false_eq_true,
          reduceCtorEq])⟩

/-- C10: for every header with src and dst in [1, 255] and length in
[4, 65535], the four bytes written by the send path (`swift_put_hdr`, lines
301-304, for a payload of `len - 4` bytes) are all below 256, and reading them
the way `swift_rcv` does (length through `ntohs`, src, dst) gives back `len`,
`src` and `dst`, on a little-endian and on a big-endian host. -/
theorem C10_header_roundtrip (host : Endian) (src dst len : Nat)
    (hsrc : 1 ≤ src ∧ src ≤ 255) (hdst : 1 ≤ dst ∧ dst ≤ 255)
    (hlen : 4 ≤ len ∧ len ≤ 65535) :
    (swift_put_hdr host src dst (len - 4)).length = 4 ∧
    (∀ x ∈ swift_put_hdr host src dst (len - 4), x < 256) ∧
    (swift_put_hdr host src dst (len - 4)).getD 0 0 = src ∧
    (swift_put_hdr host src dst (len - 4)).getD 1 0 = dst ∧
    swift_hdr_len host (swift_put_hdr host src dst (len - 4)) = len := by
  have hput := swift_put_hdr_eq host src dst (len - 4) (by omega)
  have hl : len - 4 + 4 = len := by omega
  rw [hl] at hput
  rw [hput]
  refine ⟨rfl, ?_, rfl, rfl, ?_⟩
  · intro x hx
    simp only [List.mem_cons, List.mem_singleton, List.not_mem_nil, or_false] at hx
    rcases hx with h | h | h | h <;> omega
  · simp only [swift_hdr_len, List.getD_cons_succ, List.getD_cons_zero]
    rw [ntohs_load16 host _ _ (by omega) (by omega)]
    omega

/-- C10 applied to the header (src 10, dst 20, length 300) on a little-endian
host. -/
theorem C10_header_roundtrip_witness :
    (swift_put_hdr Endian.little 10 20 (300 - 4)).length = 4 ∧
    (∀ x ∈ swift_put_hdr Endian.little 10 20 (300 - 4), x < 256) ∧
    (swift_put_hdr Endian.little 10 20 (300 - 4)).getD 0 0 = 10 ∧
    (swift_put_hdr Endian.little 10 20 (300 - 4)).getD 1 0 = 20 ∧
    swift_hdr_len Endian.little (swift_put_hdr Endian.little 10 20 (300 - 4)) = 300 :=
  C10_header_roundtrip Endian.little 10 20 300 (by decide) (by decide) (by decide)

/-- C11: for a payload of `L` bytes with `4 + L ≤ 65535`, the header written by
the send path (`swift_put_hdr`, lines 301-304) carries the length `4 + L` with
its high byte at offset 2 and its low byte at offset 3, that is big-endian on
the wire, on a little-endian and on a big-endian host. -/
theorem C11_length_wire_order (host : Endian) (sport dport L : Nat) (h : 4 + L ≤ 65535) :
    (swift_put_hdr host sport dport L).getD 2 0 = (4 + L) / 256 ∧
    (swift_put_hdr host sport dport L).getD 3 0 = (4 + L) % 256 ∧
    256 * (swift_put_hdr host sport dport L).getD 2 0 +
      (swift_put_hdr host sport dport L).getD 3 0 = 4 + L := by
  rw [swift_put_hdr_eq host sport dport L (by omega)]
  simp only [List.getD_cons_succ, List.getD_cons_zero]
  have e : L + 4 = 4 + L := Nat.add_comm L 4
  rw [e]
  refine ⟨rfl, rfl, ?_⟩
  omega

/-- C11 applied to a 296-byte payload on a little-endian host: the length 300
is written as the bytes 1, 44. -/
theorem C11_length_wire_order_witness :
    (swift_put_hdr Endian.little 10 20 296).getD 2 0 = (4 + 296) / 256 ∧
    (swift_put_hdr Endian.little 10 20 296).getD 3 0 = (4 + 296) % 256 ∧
    256 * (swift_put_hdr Endian.little 10 20 296).getD 2 0 +
      (swift_put_hdr Endian.little 10 20 296).getD 3 0 = 4 + 296 :=
  C11_length_wire_order Endian.little 10 20 296 (by decide)

/-- C12 at K = 2, V = 1: with two datagrams queued and a single 4-byte buffer,
`swift_recvmsg` copies one datagram (into buffer 0, writing `dests[0]` only)
and yet sets the count of the out-address record to 2 and its length to
4 + 2 * 12. -/
theorem C12_count_exceeds_copied :
    ∃ r ra, swift_recvmsg (fun _ => 0) two_queued_state 0
        { msg_name := some zero_addr, msg_namelen := 16, msg_iov := [[0, 0, 0, 0]],
          msg_flags := 0 } 0 0 = recv_outcome.done r ∧
      r.msg.msg_name = some ra ∧
      r.msg.msg_iov = [[1, 0, 0, 0]] ∧
      ra.dests 0 = ⟨1, 10, 1⟩ ∧ ra.dests 1 = ⟨0, 0, 0⟩ ∧
      ra.count = 2 ∧ r.msg.msg_namelen = 28 ∧ min 2 1 = 1 :=
  ⟨_, _, rfl, rfl, rfl, rfl, rfl, rfl, rfl, rfl⟩

/-- C13 (as amended): a `swift_recvmsg` call on a socket with datagrams queued,
at least one buffer, an out-address record and copies that all succeed returns
the number of bytes copied in its last iteration: with `n = min K V` datagrams
copied, the smaller of the length of datagram `n - 1` and of buffer `n - 1`. -/
theorem C13_recvmsg_return_value (copy_err : Nat → Int) (st : State) (sock : Nat)
    (ssk : swift_sock) (msg : msghdr) (flags : Nat) (err0 : Int) (skb : sk_buff)
    (queue : List sk_buff)
    (hsk : st.sk sock = some ssk) (hq : ssk.sk_receive_queue = skb :: queue)
    (hname : msg.msg_name.isSome = true) (hV : 1 ≤ msg.msg_iov.length)
    (hcopy : ∀ i, copy_err i = 0) :
    ∃ r, swift_recvmsg copy_err st sock msg flags err0 = recv_outcome.done r ∧
      r.ret = ((min
        ((skb :: queue).getD (min (queue.length + 1) msg.msg_iov.length - 1) no_skb).data.length
        (msg.msg_iov.getD (min (queue.length + 1) msg.msg_iov.length - 1) []).length : Nat) :
          Int) := by
  obtain ⟨v, hv⟩ : ∃ v, msg.msg_iov.length = v + 1 := ⟨msg.msg_iov.length - 1, by omega⟩
  have hidx : min (queue.length + 1) (v + 1) - 1 = min v queue.length := by omega
  have herr := swift_recvmsg_loop_err copy_err hcopy v 0 skb err0 msg queue
  have hnm := swift_recvmsg_loop_name copy_err (v + 1) 0 skb err0 msg queue
  rw [hname] at hnm
  rw [Nat.zero_add] at herr
  cases hn : (swift_recvmsg_loop copy_err (v + 1) 0 skb err0 msg queue).msg.msg_name with
  | none => rw [hn] at hnm; cases hnm
  | some ra =>
    simp only [swift_recvmsg, hsk, hq, hv, hn]
    refine ⟨_, rfl, ?_⟩
    rw [hidx]
    exact herr

/-- C13 (as amended) applied to the two queued datagrams [1] and [2] and two
4-byte buffers: the call returns 1, the length of the second datagram. -/
theorem C13_recvmsg_return_value_witness :
    ∃ r, swift_recvmsg (fun _ => 0) two_queued_state 0
        { msg_name := some zero_addr, msg_namelen := 28,
          msg_iov := [[0, 0, 0, 0], [0, 0, 0, 0]], msg_flags := 0 } 0 0 =
        recv_outcome.done r ∧
      r.ret = ((min
        (([{ data := [1], saddr := 1, cb := ⟨1, 10, 0⟩ },
           { data := [2], saddr := 1, cb := ⟨1, 11, 0⟩ }] : List sk_buff).getD
          (min (([{ data := [2], saddr := 1, cb := ⟨1, 11, 0⟩ }] : List sk_buff).length + 1)
            ([[0, 0, 0, 0], [0, 0, 0, 0]] : List (List Nat)).length - 1) no_skb).data.length
        (([[0, 0, 0, 0], [0, 0, 0, 0]] : List (List Nat)).getD
          (min (([{ data := [2], saddr := 1, cb := ⟨1, 11, 0⟩ }] : List sk_buff).length + 1)
            ([[0, 0, 0, 0], [0, 0, 0, 0]] : List (List Nat)).length - 1) []).length : Nat) :
          Int) :=
  C13_recvmsg_return_value (fun _ => 0) two_queued_state 0
    { bound_sock 50 with
      sk_receive_queue := [{ data := [1], saddr := 1, cb := ⟨1, 10, 0⟩ },
                           { data := [2], saddr := 1, cb := ⟨1, 11, 0⟩ }] }
    { msg_name := some zero_addr, msg_namelen := 28,
      msg_iov := [[0, 0, 0, 0], [0, 0, 0, 0]], msg_flags := 0 } 0 0
    { data := [1], saddr := 1, cb := ⟨1, 10, 0⟩ }
    [{ data := [2], saddr := 1, cb := ⟨1, 11, 0⟩ }] rfl rfl rfl (by decide) (fun _ => rfl)

/-- C13 as stated fails: with the datagrams [1] and [2] queued and two 4-byte
buffers, both datagrams are copied (one byte each, two bytes in all) and
`swift_recvmsg` returns 1. -/
theorem C13_counterexample_two_datagrams :
    ∃ r, swift_recvmsg (fun _ => 0) two_queued_state 0
        { msg_name := some zero_addr, msg_namelen := 28,
          msg_iov := [[0, 0, 0, 0], [0, 0, 0, 0]], msg_flags := 0 } 0 0 =
        recv_outcome.done r ∧
      r.msg.msg_iov = [[1, 0, 0, 0], [2, 0, 0, 0]] ∧
      (r.msg.msg_name.map (fun ra => ((ra.dests 0).bytes, (ra.dests 1).bytes))) =
        some (1, 1) ∧
      r.ret = 1 ∧ r.ret ≠ 1 + 1 :=
  ⟨_, rfl, rfl, rfl, rfl, by decide⟩

/-- C14 at count 1 and length 12: the record needs 4 + 1 * 12 = 16 bytes, yet
the length test of lines 160-162 and 244-246 lets length 12 through:
`swift_connect` returns 0 and `swift_sendmsg` sends the datagram. -/
theorem C14_short_record_accepted :
    12 < SIZEOF_SOCKADDR_SWIFT + 1 * SIZEOF_SWIFT_DEST ∧
    one_dest.count = 1 ∧
    ¬ bad_name_len one_dest 12 ∧
    (swift_connect 1 { sock_port_map := fun _ => none, sk := fun _ => some fresh_sock } 0
      (some one_dest) 12).2 = 0 ∧
    (swift_sendmsg Endian.little 1 env_ok one_bound_state 0
      { msg_name := some one_dest, msg_namelen := 12, msg_iov := [[104, 105]],
        msg_flags := 0 } 0).map (fun r => (r.2.1.map xmit_skb.data, r.2.2)) =
      some ([[10, 20, 0, 6, 104, 105]], 0) := by
  refine ⟨by decide, rfl, by decide, rfl, rfl⟩

/-- C17 for two destinations at addresses 1 and 2: both buffers are handed to
the IP layer with the route that was looked up for address 1; no lookup is made
for address 2, because the local `rt` is still set from the first iteration. -/
theorem C17_second_destination_reuses_route :
    (two_addr_dests.dests 0).addr = 1 ∧ (two_addr_dests.dests 1).addr = 2 ∧
    (swift_sendmsg Endian.little 1 env_ok one_bound_state 0 two_addr_msg 0).map
      (fun r => (r.2.1.map xmit_skb.rt, r.2.1.map xmit_skb.data, r.2.2)) =
      some ([some 1, some 1], [[10, 20, 0, 6, 104, 105], [10, 30, 0, 5, 120]], 0) := by
  refine ⟨rfl, rfl, rfl⟩

/-- C18: take an inbound buffer of at least 4 bytes whose length field (wire
bytes 2 and 3, high byte first) declares `L = 256 * b2 + b3` with
`4 ≤ L ≤ skb->len`, whose src and dst are in [1, 255] and whose dst maps to a
live socket, the receive queue taking the buffer.  On either host `swift_rcv`
puts at the tail of that socket's queue a record whose payload is exactly the
bytes [4, L) of the buffer (bytes from `L` on are cut off), so that `L` is 4
plus the payload size, and which carries the header's src port and the source
address of the IP header. -/
theorem C18_rcv_payload_and_source (host : Endian) (st : State) (skb : sk_buff) (id L : Nat)
    (ssk : swift_sock)
    (hB : 4 ≤ skb.data.length)
    (hb2 : skb.data.getD 2 0 < 256) (hb3 : skb.data.getD 3 0 < 256)
    (hL : L = 256 * skb.data.getD 2 0 + skb.data.getD 3 0)
    (hL4 : 4 ≤ L) (hLB : L ≤ skb.data.length)
    (hsrc : 1 ≤ skb.data.getD 0 0 ∧ skb.data.getD 0 0 ≤ 255)
    (hdst : 1 ≤ skb.data.getD 1 0 ∧ skb.data.getD 1 0 ≤ 255)
    (hmap : st.sock_port_map (skb.data.getD 1 0) = some id) (hsk : st.sk id = some ssk) :
    swift_rcv host st skb 0 =
      some (st.set_sk id (some { ssk with
          sk_receive_queue := ssk.sk_receive_queue ++
            [{ data := (skb.data.take L).drop 4,
               saddr := skb.saddr,
               cb := { skb.cb with port := skb.data.getD 0 0, addr := skb.saddr } }] }),
        NET_RX_SUCCESS) ∧
    L = 4 + ((skb.data.take L).drop 4).length := by
  have hlen : swift_hdr_len host skb.data = L := by
    rw [hL]
    exact ntohs_load16 host _ _ hb2 hb3
  have htrim : pskb_trim (skb.data.drop 4) (L - 4) = (skb.data.take L).drop 4 := by
    unfold pskb_trim
    rw [List.drop_take]
    split_ifs with h
    · rfl
    · rw [List.take_of_length_le (by
        rw [List.length_drop] at h ⊢
        omega)]
  constructor
  · simp only [swift_rcv, hlen, SIZEOF_SWIFTHDR, MAX_SWIFT_PORT, swift_lookup]
    rw [if_neg (by omega), if_neg (by omega), if_neg (by omega), if_neg (by omega)]
    simp only [hmap, hsk, htrim, ne_eq, not_true_eq_false, if_false]
  · simp only [List.length_drop, List.length_take]
    omega

/-- C18 applied to a 7-byte buffer from address 9 whose header carries source
port 10, destination port 20 and the length bytes 0, 6: of the three bytes
after the header only [104, 105] are queued on the socket bound to port 20, with
source (address 9, port 10); the byte 77 beyond the declared length is cut. -/
theorem C18_rcv_payload_and_source_witness :
    swift_rcv Endian.little two_bound_state
        { data := [10, 20, 0, 6, 104, 105, 77], saddr := 9, cb := ⟨0, 0, 0⟩ } 0 =
      some (two_bound_state.set_sk 1 (some { bound_sock 20 with
          sk_receive_queue := (bound_sock 20).sk_receive_queue ++
            [{ data := [104, 105], saddr := 9, cb := ⟨9, 10, 0⟩ }] }),
        NET_RX_SUCCESS) ∧
    6 = 4 + ([104, 105] : List Nat).length :=
  C18_rcv_payload_and_source Endian.little two_bound_state
    { data := [10, 20, 0, 6, 104, 105, 77], saddr := 9, cb := ⟨0, 0, 0⟩ } 1 6 (bound_sock 20)
    (by decide) (by decide) (by decide) rfl (by decide) (by decide) (by decide) (by decide)
    rfl rfl

/-- C19: on a socket with at least one datagram queued, a `swift_recvmsg` call
without an out-address record never completes: whatever the buffers, the copy
results and the flags, line 408 writes `count` through the null `ret_addr`. -/
theorem C19_recvmsg_null_out_address (copy_err : Nat → Int) (st : State) (sock : Nat)
    (ssk : swift_sock) (msg : msghdr) (flags : Nat) (err0 : Int)
    (hsk : st.sk sock = some ssk) (hq : ssk.sk_receive_queue ≠ [])
    (hname : msg.msg_name = none) :
    swift_recvmsg copy_err st sock msg flags err0 = recv_outcome.oops := by
  cases hqq : ssk.sk_receive_queue with
  | nil => exact absurd hqq hq
  | cons skb queue =>
    have hnm := swift_recvmsg_loop_name copy_err msg.msg_iov.length 0 skb err0 msg queue
    rw [hname] at hnm
    cases hn : (swift_recvmsg_loop copy_err msg.msg_iov.length 0 skb err0 msg queue).msg.msg_name with
    | none => simp only [swift_recvmsg, hsk, hqq, hn]
    | some ra => rw [hn] at hnm; cases hnm

/-- C19 applied to the socket with two datagrams queued and a call with one
4-byte buffer and no out-address record. -/
theorem C19_recvmsg_null_out_address_witness :
    swift_recvmsg (fun _ => 0) two_queued_state 0
      { msg_name := none, msg_namelen := 0, msg_iov := [[0, 0, 0, 0]], msg_flags := 0 } 0 0 =
      recv_outcome.oops :=
  C19_recvmsg_null_out_address (fun _ => 0) two_queued_state 0
    { bound_sock 50 with
      sk_receive_queue := [{ data := [1], saddr := 1, cb := ⟨1, 10, 0⟩ },
                           { data := [2], saddr := 1, cb := ⟨1, 11, 0⟩ }] }
    { msg_name := none, msg_namelen := 0, msg_iov := [[0, 0, 0, 0]], msg_flags := 0 } 0 0
    rfl (by decide) rfl

/-- C20 with every port taken: a fresh socket (src, dst, daddr all 0) connecting
to (address 1, port 20) gets `-ENOMEM`, the port table is unchanged and `src`
stays 0, but the socket is left with `dst = 20` and `daddr = 1`. -/
theorem C20_failed_connect_keeps_destination :
    (full_state.sk 0).map (fun s => (s.src, s.dst, s.inet_daddr)) = some (0, 0, 0) ∧
    (swift_connect 1 full_state 0 (some one_dest) 16).2 = -ENOMEM ∧
    (swift_connect 1 full_state 0 (some one_dest) 16).1.sock_port_map =
      full_state.sock_port_map ∧
    ((swift_connect 1 full_state 0 (some one_dest) 16).1.sk 0).map
      (fun s => (s.src, s.dst, s.inet_daddr)) = some (0, 20, 1) := by
  have hc := swift_connect_no_port 1 full_state 0 fresh_sock one_dest 16 rfl rfl
    (by decide) (by decide) get_next_free_port_full_state
  rw [hc]
  exact ⟨rfl, rfl, rfl, rfl⟩

/-- C15 after create, bind to port 5, bind to port 6 on the same socket: both
calls of `swift_bind` return 0, slot 5 still maps to the socket, and the
socket's `src` is 6. -/
theorem C15_rebind_leaves_stale_slot :
    ∃ st, run_calls Endian.little 1 init_state
        [call.create 0, call.bind 0 (bind_addr 5) 16, call.bind 0 (bind_addr 6) 16] = some st ∧
      ((swift_bind (swift_create init_state 0) 0 (bind_addr 5) 16).map Prod.snd) = some 0 ∧
      swift_lookup st.sock_port_map 5 = some 0 ∧
      swift_lookup st.sock_port_map 6 = some 0 ∧
      (st.sk 0).map swift_sock.src = some 6 :=
  ⟨_, rfl, rfl, rfl, rfl, rfl⟩

/-- C16: in every state reached from the initial state by a sequence of create,
bind, connect, sendmsg, recvmsg, inbound delivery and release calls (each
returning with success or with an error), every live socket whose `src` is not
0 is the socket that the port table gives for `src`. -/
theorem C16_socket_in_table (host : Endian) (MIN_SWIFT_PORT : Nat) (st : State)
    (hreach : reachable host MIN_SWIFT_PORT st) :
    ∀ id s, st.sk id = some s → s.src ≠ 0 →
      swift_lookup st.sock_port_map s.src = some id := by
  obtain ⟨cs, hcs⟩ := hreach
  have hinit : src_in_table init_state := by
    intro id s hs _
    cases hs
  exact src_in_table_run_calls host MIN_SWIFT_PORT cs init_state st hinit hcs

/-- C16 applied to the state after creating socket 0 and binding it to port 42:
port 42 maps to socket 0. -/
theorem C16_socket_in_table_witness :
    swift_lookup bound42_state.sock_port_map 42 = some 0 :=
  C16_socket_in_table Endian.little 1 bound42_state
    ⟨[call.create 0, call.bind 0 (bind_addr 42) 16], rfl⟩ 0
    { src := 42, dst := 0, inet_daddr := 0, sk_rcvbuf := 10 * 1024 * 1024,
      sk_receive_queue := [], sk_dst_cache := none } rfl (by decide)

end Swift
